import Mathlib

/-!
# miniplc0 analyser: statements and program

A shallow embedding of `src/analyser/statement.cpp` and `src/analyser/program.cpp`.

The C++ member functions mutate the `Analyser` object and return
`std::optional<CompilationError>`; here each one is a function from the analyser
state to the returned optional together with the new state.  `std::optional::value()`
on an empty optional throws `std::bad_optional_access`; that outcome is `Except.error`.
The mutually recursive statement procedures contain a `while (true)` loop, so they
take a fuel argument and return `none` when the fuel runs out.

The header `analyser.h` (token type, cursor, symbol table) and the expression and
function analysers are not part of the sources at hand.  The cursor and the symbol
table are modelled from the specification; the expression and function analysers
are parameters (`Collab`).
-/

namespace miniplc0

/-! ## Data model -/

/-- Modelled from the spec: the enumeration `TokenType` of `analyser.h` is missing.
The named kinds are the ones the sources mention; `OTHER n` stands for the remaining
kinds (literals, operators, further punctuation) of the closed enumeration. -/
inductive TokenType where
  | FN | LET | CONST | IF | ELSE | WHILE | RETURN | INT | DOUBLE
  | LEFT_BRACE | RIGHT_BRACE | COLON | SEMICOLON | ASSIGN | IDENTIFIER
  | OTHER (n : Nat)
  deriving DecidableEq, Repr

/-- Modelled from the spec: the class `Token` is missing.  The six constructor
arguments are the ones of `Token(TokenType::IDENTIFIER, "_start", 0, 0, 0, 0)`. -/
structure Token where
  type : TokenType
  value : String
  line : Nat
  column : Nat
  startOffset : Nat
  endOffset : Nat
  deriving DecidableEq, Repr

/-- The accessor `GetType`. -/
def Token.GetType (t : Token) : TokenType := t.type

/-- The accessor `GetValueString`. -/
def Token.GetValueString (t : Token) : String := t.value

/-- Modelled from the spec: the closed set of error kinds of section 6. -/
inductive ErrorCode where
  | ErrRecognized | ErrNeedIdentifier | ErrNeedColon | ErrNeedType | ErrNeedSemicolon
  | ErrNeedBrace | ErrNeedReturn | ErrDuplicateDeclaration | ErrConstantNeedValue
  | ErrNeedDeclareSymbol
  deriving DecidableEq, Repr

/-- The error value `CompilationError{position, kind}`. -/
structure CompilationError where
  pos : Nat × Nat
  code : ErrorCode
  deriving DecidableEq, Repr

/-- The record `VariableItem`: the two fields the sources assign. -/
structure VariableItem where
  is_const : Bool
  type : TokenType
  deriving DecidableEq, Repr

/-- Modelled from the spec: the record `FunctionItem` is missing; the sources only
assign `name`.  The spec gives a function record a name, parameter types, a return
type and a body scope; the body scope is kept here as the list of its declarations. -/
structure FunctionItem where
  name : String
  paramTypes : List TokenType
  returnType : Option TokenType
  bodyScope : List (String × VariableItem)
  deriving DecidableEq, Repr

/-- The default constructor `FunctionItem()`: nothing is set. -/
def FunctionItem.default : FunctionItem :=
  { name := "", paramTypes := [], returnType := none, bodyScope := [] }

/-- One scope: the declarations made in it, oldest first. -/
abbrev Scope := List (String × VariableItem)

/-- Modelled from the spec: the symbol table is missing.  It is a stack of scopes;
`current` is the innermost scope, `outer` the enclosing ones, innermost first. -/
structure SymbolTable where
  current : Scope
  outer : List Scope
  deriving DecidableEq, Repr

/-- The calls made on the token cursor, kept as a record of the run. -/
inductive CursorCall where
  | nextSome | nextNone | unread
  deriving DecidableEq, Repr

/-- The analyser object: the token cursor, the symbol table, the function table. -/
structure Analyser where
  _tokens : List Token
  _offset : Nat
  _current_pos : Nat × Nat
  _calls : List CursorCall
  _symbols : SymbolTable
  _functions : List (Token × FunctionItem)
  deriving DecidableEq, Repr

/-- The exception a C++ run can end in. -/
inductive Exn where
  | bad_optional_access
  deriving DecidableEq, Repr

/-- What a procedure hands back: the optional error it returns and the state it
leaves, or the exception it throws. -/
abbrev Ret := Except Exn (Option CompilationError × Analyser)

/-! ## Token cursor -/

/-- Modelled from the spec: `nextToken` is missing.  It returns the next token and
advances, or returns nothing at the end of the stream; the current position becomes
the position of the token returned. -/
def nextToken (s : Analyser) : Option Token × Analyser :=
  match s._tokens[s._offset]? with
  | some t =>
      (some t, { s with _offset := s._offset + 1, _current_pos := (t.line, t.column),
                        _calls := s._calls ++ [CursorCall.nextSome] })
  | none => (none, { s with _calls := s._calls ++ [CursorCall.nextNone] })

/-- Modelled from the spec: `unreadToken` is missing.  It restores the most recently
returned token, so that the following `nextToken` returns it again. -/
def unreadToken (s : Analyser) : Analyser :=
  { s with _offset := s._offset - 1, _calls := s._calls ++ [CursorCall.unread] }

/-! ## Symbol table -/

/-- Modelled from the spec: `isLocalVariableDeclared` is missing.  It tells whether
the name is declared in the current scope. -/
def isLocalVariableDeclared (s : Analyser) (name : String) : Bool :=
  s._symbols.current.any (fun d => d.1 == name)

/-- Modelled from the spec: `declareVariable` is missing.  It adds the name to the
current scope, and fails (leaving the table as it is) when the current scope has it. -/
def declareVariable (s : Analyser) (tok : Token) (var : VariableItem) : Analyser :=
  if isLocalVariableDeclared s tok.GetValueString then s
  else { s with _symbols :=
          { s._symbols with current := s._symbols.current ++ [(tok.GetValueString, var)] } }

/-- Modelled from the spec: `declareFunction` is missing.  It enters the record in
the function table. -/
def declareFunction (s : Analyser) (tok : Token) (func : FunctionItem) : Analyser :=
  { s with _functions := s._functions ++ [(tok, func)] }

/-- Modelled from the spec: lookup with shadowing, innermost scope first. -/
def lookup (s : Analyser) (name : String) : Option VariableItem :=
  ((s._symbols.current :: s._symbols.outer).findSome?
    (fun sc => sc.reverse.find? (fun d => d.1 == name))).map Prod.snd

/-! ## Collaborators -/

/-- The procedures of the analyser whose code is missing: the two expression
analysers and the function analyser.  Each returns an optional error and may change
the analyser state. -/
structure Collab where
  analyseExpression : Analyser → Option CompilationError × Analyser
  analyseAssignExpression : Analyser → Option CompilationError × Analyser
  analyseFunction : Analyser → Option CompilationError × Analyser

/-! ## Statements (`statement.cpp`) -/

/-- Build `std::make_optional<CompilationError>(_current_pos, code)`. -/
def mkErr (s : Analyser) (code : ErrorCode) : Ret :=
  Except.ok (some { pos := s._current_pos, code := code }, s)

/-- `expr_stmt -> expr ';'` -/
def analyseExprStatement (c : Collab) (_func : FunctionItem) (s : Analyser) : Ret :=
  match c.analyseExpression s with
  | (some e, s1) => Except.ok (some e, s1)
  | (none, s1) =>
    match nextToken s1 with
    | (none, s2) => mkErr s2 ErrorCode.ErrNeedSemicolon
    | (some t, s2) =>
      if t.GetType ≠ TokenType.SEMICOLON then mkErr s2 ErrorCode.ErrNeedSemicolon
      else Except.ok (none, s2)

/-- The tail of a `let` declaration after the token following the type was read:
the optional initialiser, the semicolon, the declaration. -/
def declVariableTail (c : Collab) (var_token : Token) (var : VariableItem)
    (next : Option Token) (s : Analyser) : Ret :=
  let finish (next : Option Token) (s : Analyser) : Ret :=
    match next with
    | none => mkErr s ErrorCode.ErrNeedSemicolon
    | some t =>
      if t.GetType ≠ TokenType.SEMICOLON then mkErr s ErrorCode.ErrNeedSemicolon
      else Except.ok (none, declareVariable s var_token var)
  match next with
  | some t =>
    if t.GetType = TokenType.ASSIGN then
      match c.analyseAssignExpression (unreadToken s) with
      | (some e, s1) => Except.ok (some e, s1)
      | (none, s1) =>
        let r := nextToken s1
        finish r.1 r.2
    else finish next s
  | none => finish next s

/-- `let_decl_stmt -> 'let' IDENT ':' ty ('=' expr)? ';'` -/
def analyseDeclVariableStatement (c : Collab) (_func : FunctionItem) (s : Analyser) : Ret :=
  match nextToken s with
  | (none, s1) => mkErr s1 ErrorCode.ErrNeedDeclareSymbol
  | (some t1, s1) =>
    if t1.GetType ≠ TokenType.LET then mkErr s1 ErrorCode.ErrNeedDeclareSymbol
    else
      -- IDENT
      match nextToken s1 with
      | (none, s2) => mkErr s2 ErrorCode.ErrNeedIdentifier
      | (some var_token, s2) =>
        if var_token.GetType ≠ TokenType.IDENTIFIER then mkErr s2 ErrorCode.ErrNeedIdentifier
        else if isLocalVariableDeclared s2 var_token.GetValueString then
          mkErr s2 ErrorCode.ErrDuplicateDeclaration
        else
          -- ':'
          match nextToken s2 with
          | (none, s3) => mkErr s3 ErrorCode.ErrNeedColon
          | (some t3, s3) =>
            if t3.GetType ≠ TokenType.COLON then mkErr s3 ErrorCode.ErrNeedColon
            else
              -- TYPE: the check has an empty body, then `next.value()` is taken
              match nextToken s3 with
              | (none, _) => Except.error Exn.bad_optional_access
              | (some ty, s4) =>
                let var : VariableItem := { is_const := false, type := ty.GetType }
                -- ASSIGN
                let r := nextToken s4
                declVariableTail c var_token var r.1 r.2

/-- `const_decl_stmt -> 'const' IDENT ':' ty '=' expr ';'` -/
def analyseDeclConstStatement (c : Collab) (_func : FunctionItem) (s : Analyser) : Ret :=
  match nextToken s with
  | (none, s1) => mkErr s1 ErrorCode.ErrNeedDeclareSymbol
  | (some t1, s1) =>
    if t1.GetType ≠ TokenType.CONST then mkErr s1 ErrorCode.ErrNeedDeclareSymbol
    else
      -- IDENT
      match nextToken s1 with
      | (none, s2) => mkErr s2 ErrorCode.ErrNeedIdentifier
      | (some var_token, s2) =>
        if var_token.GetType ≠ TokenType.IDENTIFIER then mkErr s2 ErrorCode.ErrNeedIdentifier
        else if isLocalVariableDeclared s2 var_token.GetValueString == true then
          mkErr s2 ErrorCode.ErrDuplicateDeclaration
        else
          -- ':'
          match nextToken s2 with
          | (none, s3) => mkErr s3 ErrorCode.ErrNeedColon
          | (some t3, s3) =>
            if t3.GetType ≠ TokenType.COLON then mkErr s3 ErrorCode.ErrNeedColon
            else
              -- TYPE: the check has an empty body, then `next.value()` is taken
              match nextToken s3 with
              | (none, _) => Except.error Exn.bad_optional_access
              | (some ty, s4) =>
                let var : VariableItem := { is_const := true, type := ty.GetType }
                -- ASSIGN
                match nextToken s4 with
                | (none, s5) => mkErr s5 ErrorCode.ErrConstantNeedValue
                | (some t5, s5) =>
                  if t5.GetType ≠ TokenType.ASSIGN then mkErr s5 ErrorCode.ErrConstantNeedValue
                  else
                    match c.analyseAssignExpression (unreadToken s5) with
                    | (some e, s6) => Except.ok (some e, s6)
                    | (none, s6) =>
                      match nextToken s6 with
                      | (none, s7) => mkErr s7 ErrorCode.ErrNeedSemicolon
                      | (some t7, s7) =>
                        if t7.GetType ≠ TokenType.SEMICOLON then
                          mkErr s7 ErrorCode.ErrNeedSemicolon
                        else Except.ok (none, declareVariable s7 var_token var)

/-- `return_stmt -> 'return' expr? ';'` -/
def analyseReturnStatement (c : Collab) (_func : FunctionItem) (s : Analyser) : Ret :=
  let finish (next : Option Token) (s : Analyser) : Ret :=
    match next with
    | some t =>
      if t.GetType = TokenType.SEMICOLON then Except.ok (none, s)
      else mkErr s ErrorCode.ErrNeedSemicolon
    | none => mkErr s ErrorCode.ErrNeedSemicolon
  let parseExpr (s : Analyser) : Ret :=
    match c.analyseExpression (unreadToken s) with
    | (some e, s1) => Except.ok (some e, s1)
    | (none, s1) =>
      let r := nextToken s1
      finish r.1 r.2
  match nextToken s with
  | (none, s1) => mkErr s1 ErrorCode.ErrNeedReturn
  | (some t1, s1) =>
    if t1.GetType ≠ TokenType.RETURN then mkErr s1 ErrorCode.ErrNeedReturn
    else
      match nextToken s1 with
      | (none, s2) => parseExpr s2
      | (some t2, s2) =>
        if t2.GetType ≠ TokenType.SEMICOLON then parseExpr s2
        else finish (some t2) s2

/-- `empty_stmt -> ';'` -/
def analyseEmptyStatement (s : Analyser) : Ret :=
  match nextToken s with
  | (none, s1) => mkErr s1 ErrorCode.ErrNeedSemicolon
  | (some t, s1) =>
    if t.GetType ≠ TokenType.SEMICOLON then mkErr s1 ErrorCode.ErrNeedSemicolon
    else Except.ok (none, s1)

/-- The pattern `err = p(); if (err.has_value()) return err;` followed by the rest
of the procedure: an exception or an error of `p` ends the procedure, and so does
running out of fuel. -/
def orReturn (r : Option Ret) (k : Analyser → Option Ret) : Option Ret :=
  match r with
  | none => none
  | some (Except.error x) => some (Except.error x)
  | some (Except.ok (some e, s)) => some (Except.ok (some e, s))
  | some (Except.ok (none, s)) => k s

mutual

/-- `stmt -> expr_stmt | decl_stmt | if_stmt | while_stmt | return_stmt | block_stmt
| empty_stmt` -/
def analyseStatement (c : Collab) (func : FunctionItem) : Nat → Analyser → Option Ret
  | 0, _ => none
  | fuel + 1, s =>
    match nextToken s with
    | (none, s1) => some (mkErr s1 ErrorCode.ErrNeedSemicolon)
    | (some t, s1) =>
      match t.GetType with
      | TokenType.IF =>
        orReturn (analyseIfStatement c func fuel (unreadToken s1))
          (fun s2 => some (Except.ok (none, s2)))
      | TokenType.WHILE =>
        orReturn (analyseWhileStatement c func fuel (unreadToken s1))
          (fun s2 => some (Except.ok (none, s2)))
      | TokenType.RETURN =>
        orReturn (some (analyseReturnStatement c func (unreadToken s1)))
          (fun s2 => some (Except.ok (none, s2)))
      | TokenType.LEFT_BRACE =>
        orReturn (analyseBlockStatement c func fuel (unreadToken s1))
          (fun s2 => some (Except.ok (none, s2)))
      | TokenType.LET =>
        orReturn (some (analyseDeclVariableStatement c func (unreadToken s1)))
          (fun s2 => some (Except.ok (none, s2)))
      | TokenType.CONST =>
        orReturn (some (analyseDeclConstStatement c func (unreadToken s1)))
          (fun s2 => some (Except.ok (none, s2)))
      | TokenType.SEMICOLON => some (Except.ok (none, s1))
      | _ =>
        orReturn (some (analyseExprStatement c func (unreadToken s1)))
          (fun s2 => some (Except.ok (none, s2)))

/-- `if_stmt -> 'if' expr block_stmt ('else' (block_stmt | if_stmt))?` -/
def analyseIfStatement (c : Collab) (func : FunctionItem) : Nat → Analyser → Option Ret
  | 0, _ => none
  | fuel + 1, s =>
    match nextToken s with
    | (none, s1) => some (mkErr s1 ErrorCode.ErrNeedDeclareSymbol)
    | (some t, s1) =>
      if t.GetType ≠ TokenType.IF then some (mkErr s1 ErrorCode.ErrNeedDeclareSymbol)
      else
        orReturn (some (Except.ok (c.analyseExpression s1))) (fun s2 =>
        orReturn (analyseBlockStatement c func fuel s2) (fun s3 =>
        match nextToken s3 with
        | (some t4, s4) =>
          if t4.GetType = TokenType.ELSE then some (Except.ok (none, s4))
          else some (Except.ok (none, unreadToken s4))
        | (none, s4) => some (Except.ok (none, unreadToken s4))))

/-- `while_stmt -> 'while' expr block_stmt` -/
def analyseWhileStatement (c : Collab) (func : FunctionItem) : Nat → Analyser → Option Ret
  | 0, _ => none
  | fuel + 1, s =>
    match nextToken s with
    | (none, s1) => some (mkErr s1 ErrorCode.ErrNeedDeclareSymbol)
    | (some t, s1) =>
      if t.GetType ≠ TokenType.WHILE then some (mkErr s1 ErrorCode.ErrNeedDeclareSymbol)
      else
        orReturn (some (Except.ok (c.analyseExpression s1))) (fun s2 =>
        orReturn (analyseBlockStatement c func fuel s2) (fun s3 =>
        match nextToken s3 with
        | (some t4, s4) =>
          if t4.GetType = TokenType.ELSE then
            orReturn (analyseBlockStatement c func fuel s4)
              (fun s5 => some (Except.ok (none, s5)))
          else some (Except.ok (none, unreadToken s4))
        | (none, s4) => some (Except.ok (none, unreadToken s4))))

/-- `block_stmt -> '{' stmt* '}'`: the opening brace, then the loop. -/
def analyseBlockStatement (c : Collab) (func : FunctionItem) : Nat → Analyser → Option Ret
  | 0, _ => none
  | fuel + 1, s =>
    match nextToken s with
    | (none, s1) => some (mkErr s1 ErrorCode.ErrNeedBrace)
    | (some t, s1) =>
      if t.GetType ≠ TokenType.LEFT_BRACE then some (mkErr s1 ErrorCode.ErrNeedBrace)
      else analyseBlockStatementLoop c func fuel s1

/-- The `while (true)` loop of `analyseBlockStatement`; each iteration takes one
unit of fuel.  The `return` after the loop is unreachable. -/
def analyseBlockStatementLoop (c : Collab) (func : FunctionItem) :
    Nat → Analyser → Option Ret
  | 0, _ => none
  | fuel + 1, s =>
    orReturn (analyseStatement c func fuel s) (fun s1 =>
    match nextToken s1 with
    | (some t2, s2) =>
      if t2.GetType = TokenType.RIGHT_BRACE then some (Except.ok (none, s2))
      else analyseBlockStatementLoop c func fuel (unreadToken s2)
    | (none, s2) => analyseBlockStatementLoop c func fuel (unreadToken s2))

end

/-! ## Program (`program.cpp`) -/

/-- The `while (true)` loop of `analyseProgram`; each iteration takes one unit of
fuel.  `Except.ok (none, s)` is the `break` at the end of the stream. -/
def analyseProgramLoop (c : Collab) (_start : FunctionItem) : Nat → Analyser → Option Ret
  | 0, _ => none
  | fuel + 1, s =>
    match nextToken s with
    | (none, s1) => some (Except.ok (none, s1))
    | (some t, s1) =>
      if t.GetType = TokenType.FN then
        orReturn (some (Except.ok (c.analyseFunction (unreadToken s1))))
          (fun s2 => analyseProgramLoop c _start fuel s2)
      else if t.GetType = TokenType.LET then
        orReturn (some (analyseDeclVariableStatement c _start (unreadToken s1)))
          (fun s2 => analyseProgramLoop c _start fuel s2)
      else if t.GetType = TokenType.CONST then
        orReturn (some (analyseDeclConstStatement c _start (unreadToken s1)))
          (fun s2 => analyseProgramLoop c _start fuel s2)
      else some (mkErr (unreadToken s1) ErrorCode.ErrRecognized)

/-- The record `_start` as `analyseProgram` sets it up. -/
def startItem : FunctionItem := { FunctionItem.default with name := "_start" }

/-- The token `Token(TokenType::IDENTIFIER, "_start", 0, 0, 0, 0)`. -/
def startToken : Token :=
  { type := TokenType.IDENTIFIER, value := "_start", line := 0, column := 0,
    startOffset := 0, endOffset := 0 }

/-- `program -> decl_stmt* function*` -/
def analyseProgram (c : Collab) (fuel : Nat) (s : Analyser) : Option Ret :=
  orReturn (analyseProgramLoop c startItem fuel s)
    (fun s1 => some (Except.ok (none, declareFunction s1 startToken startItem)))


/-! ## Proof vocabulary -/

/-- A relation between analyser states that holds from a state to itself, composes,
and holds across every call on the token cursor. -/
structure CursorClosed (R : Analyser → Analyser → Prop) : Prop where
  refl : ∀ s, R s s
  trans : ∀ a b c, R a b → R b c → R a c
  next : ∀ s, R s (nextToken s).2
  unread : ∀ s, R s (unreadToken s)

/-- The last call on the cursor returned the token `t`: `t` is the token just before
the cursor, and no `unreadToken` has moved the cursor since. -/
def JustRead (s : Analyser) (t : Token) : Prop :=
  0 < s._offset ∧ s._tokens[s._offset - 1]? = some t ∧
    s._calls.getLast? = some CursorCall.nextSome

/-- The relation holds from the start state to the state a run returns; a run that
throws or runs out of fuel returns no state. -/
def RetRel (R : Analyser → Analyser → Prop) (s : Analyser) : Option Ret → Prop
  | some (Except.ok (_, s')) => R s s'
  | _ => True

/-- The symbol table of the second state extends that of the first: the enclosing
scopes are the same and the current scope has only gained declarations at its end. -/
def SymExt (a b : Analyser) : Prop :=
  b._symbols.outer = a._symbols.outer ∧ a._symbols.current <+: b._symbols.current

/-- The returned optional of a run, without the state. -/
def verdict (r : Option Ret) : Option (Except Exn (Option CompilationError)) :=
  r.map (fun x => x.map Prod.fst)

/-- The entries of the function table declared under the name `_start`. -/
def startDeclarations (s : Analyser) : List (Token × FunctionItem) :=
  s._functions.filter (fun p => p.1.value == "_start")

/-- The pushback discipline on a record of cursor calls, given the call before it:
every `unread` comes right after a `nextSome`. -/
def pushbackDisciplineFrom (prev : Option CursorCall) : List CursorCall → Bool
  | [] => true
  | CursorCall.unread :: rest =>
    (prev == some CursorCall.nextSome) && pushbackDisciplineFrom (some CursorCall.unread) rest
  | CursorCall.nextSome :: rest => pushbackDisciplineFrom (some CursorCall.nextSome) rest
  | CursorCall.nextNone :: rest => pushbackDisciplineFrom (some CursorCall.nextNone) rest

/-- The pushback discipline on a whole record of cursor calls: every `unread` comes
right after a `nextSome`, so never first, never twice in a row, and never after a read
that returned nothing. -/
def pushbackDiscipline (calls : List CursorCall) : Bool :=
  pushbackDisciplineFrom none calls

/-- The cursor offset of the state a run returns. -/
def finalOffset (r : Option Ret) : Option Nat :=
  match r with
  | some (Except.ok (_, s)) => some s._offset
  | _ => none

/-! ## Concrete inputs

Token lists, analyser states and stand-ins for the missing procedures, used to run
the procedures on concrete inputs. -/

/-- A token of the given kind and text on line 1 at the given column. -/
def tok (ty : TokenType) (v : String) (col : Nat) : Token :=
  { type := ty, value := v, line := 1, column := col, startOffset := col,
    endOffset := col + 1 }

/-- An analyser at the start of a token list, with one empty scope and no function. -/
def initAnalyser (ts : List Token) : Analyser :=
  { _tokens := ts, _offset := 0, _current_pos := (0, 0), _calls := [],
    _symbols := { current := [], outer := [] }, _functions := [] }

/-- An analyser at the start of a token list whose symbol table is given. -/
def analyserWith (ts : List Token) (tbl : SymbolTable) : Analyser :=
  { initAnalyser ts with _symbols := tbl }

/-- Stand-in for `analyseExpression`: an expression is one identifier or one token of
a kind the sources do not name. -/
def oneTokenExpression (s : Analyser) : Option CompilationError × Analyser :=
  match nextToken s with
  | (some t, s1) =>
    match t.GetType with
    | TokenType.IDENTIFIER => (none, s1)
    | TokenType.OTHER _ => (none, s1)
    | _ => (some { pos := s1._current_pos, code := ErrorCode.ErrRecognized }, s1)
  | (none, s1) => (some { pos := s1._current_pos, code := ErrorCode.ErrRecognized }, s1)

/-- Stand-in for `analyseAssignExpression`: `=` followed by a one-token expression. -/
def assignOneToken (s : Analyser) : Option CompilationError × Analyser :=
  match nextToken s with
  | (some t, s1) =>
    if t.GetType = TokenType.ASSIGN then oneTokenExpression s1
    else (some { pos := s1._current_pos, code := ErrorCode.ErrRecognized }, s1)
  | (none, s1) => (some { pos := s1._current_pos, code := ErrorCode.ErrRecognized }, s1)

/-- Stand-in for `analyseFunction`: it accepts no function. -/
def noFunction (s : Analyser) : Option CompilationError × Analyser :=
  (some { pos := s._current_pos, code := ErrorCode.ErrRecognized }, s)

/-- The stand-ins together. -/
def standIns : Collab :=
  { analyseExpression := oneTokenExpression, analyseAssignExpression := assignOneToken,
    analyseFunction := noFunction }

/-- The tokens of `let x : int ;`, starting at the given column. -/
def letXInt (col : Nat) : List Token :=
  [tok TokenType.LET "let" col, tok TokenType.IDENTIFIER "x" (col + 1),
   tok TokenType.COLON ":" (col + 2), tok TokenType.INT "int" (col + 3),
   tok TokenType.SEMICOLON ";" (col + 4)]

/-- The tokens of `const x : int ;`. -/
def constXInt : List Token :=
  [tok TokenType.CONST "const" 0, tok TokenType.IDENTIFIER "x" 1,
   tok TokenType.COLON ":" 2, tok TokenType.INT "int" 3, tok TokenType.SEMICOLON ";" 4]

/-- The tokens of `{ let x : int ; }`. -/
def blockLetXInt : List Token :=
  tok TokenType.LEFT_BRACE "\x7b" 0 :: (letXInt 1 ++ [tok TokenType.RIGHT_BRACE "\x7d" 6])

/-- The tokens of `if x { ; } ;`. -/
def ifStream : List Token :=
  [tok TokenType.IF "if" 0, tok TokenType.IDENTIFIER "x" 1,
   tok TokenType.LEFT_BRACE "\x7b" 2, tok TokenType.SEMICOLON ";" 3,
   tok TokenType.RIGHT_BRACE "\x7d" 4, tok TokenType.SEMICOLON ";" 5]

/-- A symbol table whose current scope declares `x`. -/
def tableWithX : SymbolTable :=
  { current := [("x", { is_const := false, type := TokenType.INT })], outer := [] }

/-- A symbol table whose current scope is empty and whose enclosing scope declares
`x`. -/
def tableWithOuterX : SymbolTable :=
  { current := [], outer := [[("x", { is_const := false, type := TokenType.INT })]] }

/-- The state `analyseBlockStatement` leaves on `{ let x : int ; }` from a fresh
analyser. -/
def afterBlockLetXInt : Analyser :=
  { initAnalyser blockLetXInt with
    _offset := 7
    _current_pos := (1, 6)
    _calls := [CursorCall.nextSome, CursorCall.nextSome, CursorCall.unread,
      CursorCall.nextSome, CursorCall.nextSome, CursorCall.nextSome, CursorCall.nextSome,
      CursorCall.nextSome, CursorCall.nextSome]
    _symbols := { current := [("x", { is_const := false, type := TokenType.INT })],
                  outer := [] } }

/-- The state `analyseIfStatement` leaves on `if x { ; } ;` from a fresh analyser. -/
def afterIfStream : Analyser :=
  { initAnalyser ifStream with
    _offset := 5
    _current_pos := (1, 5)
    _calls := [CursorCall.nextSome, CursorCall.nextSome, CursorCall.nextSome,
      CursorCall.nextSome, CursorCall.nextSome, CursorCall.nextSome, CursorCall.unread] }

/-- The tokens of `return ;`. -/
def returnSemi : List Token :=
  [tok TokenType.RETURN "return" 0, tok TokenType.SEMICOLON ";" 1]

/-- The tokens of the empty block. -/
def emptyBlock : List Token :=
  [tok TokenType.LEFT_BRACE "\x7b" 0, tok TokenType.RIGHT_BRACE "\x7d" 1]

/-- The tokens of `if x { ; } else`, the stream ending right after `else`. -/
def ifElseEnd : List Token :=
  [tok TokenType.IF "if" 0, tok TokenType.IDENTIFIER "x" 1,
   tok TokenType.LEFT_BRACE "\x7b" 2, tok TokenType.SEMICOLON ";" 3,
   tok TokenType.RIGHT_BRACE "\x7d" 4, tok TokenType.ELSE "else" 5]

/-- The tokens of the unterminated block `{ ;`. -/
def openBlockSemi : List Token :=
  [tok TokenType.LEFT_BRACE "\x7b" 0, tok TokenType.SEMICOLON ";" 1]

/-- The tokens of `let x : while ;`. -/
def letXWhile : List Token :=
  [tok TokenType.LET "let" 0, tok TokenType.IDENTIFIER "x" 1, tok TokenType.COLON ":" 2,
   tok TokenType.WHILE "while" 3, tok TokenType.SEMICOLON ";" 4]

/-- The tokens of `let x :`, the stream ending right after the colon. -/
def letXColon : List Token :=
  [tok TokenType.LET "let" 0, tok TokenType.IDENTIFIER "x" 1, tok TokenType.COLON ":" 2]

/-- The tokens of `while x { ; } else { ; }`. -/
def whileElseBlock : List Token :=
  [tok TokenType.WHILE "while" 0, tok TokenType.IDENTIFIER "x" 1,
   tok TokenType.LEFT_BRACE "\x7b" 2, tok TokenType.SEMICOLON ";" 3,
   tok TokenType.RIGHT_BRACE "\x7d" 4, tok TokenType.ELSE "else" 5,
   tok TokenType.LEFT_BRACE "\x7b" 6, tok TokenType.SEMICOLON ";" 7,
   tok TokenType.RIGHT_BRACE "\x7d" 8]

/-- The one-token stream `return`. -/
def returnOnly : List Token := [tok TokenType.RETURN "return" 0]

/-! # Theorems -/

/-! ## Cursor lemmas -/

theorem getElem?_of_drop {α : Type} {l xs : List α} {n : Nat} (h : l.drop n = xs) (k : Nat) :
    l[n + k]? = xs[k]? := by
  rw [← h, List.getElem?_drop]

/-! ## Declarations on explicit streams -/

/-- C1. Same-scope redeclaration is rejected: when the stream starts `let x` or
`const x` and `x` is declared in the current scope, the declaration procedure returns
`ErrDuplicateDeclaration` (at the identifier) and leaves the symbol table unchanged;
and a program starting `let x : T ; let x` fails with `ErrDuplicateDeclaration`
without declaring `_start`. -/
theorem C1_same_scope_redeclaration (c : Collab) (func : FunctionItem) (s : Analyser)
    (t1 t2 : Token) (rest : List Token)
    (hs : s._tokens.drop s._offset = t1 :: t2 :: rest)
    (h2 : t2.type = TokenType.IDENTIFIER)
    (hx : isLocalVariableDeclared s t2.value = true) :
    (t1.type = TokenType.LET →
      ∃ s', analyseDeclVariableStatement c func s
          = Except.ok (some ⟨(t2.line, t2.column), ErrorCode.ErrDuplicateDeclaration⟩, s')
        ∧ s'._symbols = s._symbols)
    ∧ (t1.type = TokenType.CONST →
      ∃ s', analyseDeclConstStatement c func s
          = Except.ok (some ⟨(t2.line, t2.column), ErrorCode.ErrDuplicateDeclaration⟩, s')
        ∧ s'._symbols = s._symbols)
    ∧ (∀ (fuel : Nat) (s0 : Analyser) (l1 x1 c1 ty1 sc1 l2 x2 : Token) (more : List Token),
        s0._tokens.drop s0._offset = [l1, x1, c1, ty1, sc1, l2, x2] ++ more →
        l1.type = TokenType.LET → x1.type = TokenType.IDENTIFIER →
        c1.type = TokenType.COLON → sc1.type = TokenType.SEMICOLON →
        l2.type = TokenType.LET → x2.type = TokenType.IDENTIFIER → x2.value = x1.value →
        ∃ e s', analyseProgram c (fuel + 2) s0 = some (Except.ok (some e, s'))
          ∧ e.code = ErrorCode.ErrDuplicateDeclaration
          ∧ s'._functions = s0._functions) := by
  have g0 := getElem?_of_drop hs 0
  have g1 := getElem?_of_drop hs 1
  simp only [List.getElem?_cons_zero, List.getElem?_cons_succ, Nat.add_zero] at g0 g1
  simp only [isLocalVariableDeclared] at hx
  refine ⟨?_, ?_, ?_⟩
  · intro h1
    simp only [analyseDeclVariableStatement, nextToken, g0, g1, Token.GetType,
      Token.GetValueString, h1, h2, mkErr, isLocalVariableDeclared, hx]
    simp
  · intro h1
    simp only [analyseDeclConstStatement, nextToken, g0, g1, Token.GetType,
      Token.GetValueString, h1, h2, mkErr, isLocalVariableDeclared, hx]
    simp
  · intro fuel s0 l1 x1 c1 ty1 sc1 l2 x2 more hs0 hl1 hx1 hc1 hsc1 hl2 hx2 hv
    have k0 := getElem?_of_drop hs0 0
    have k1 := getElem?_of_drop hs0 1
    have k2 := getElem?_of_drop hs0 2
    have k3 := getElem?_of_drop hs0 3
    have k4 := getElem?_of_drop hs0 4
    have k5 := getElem?_of_drop hs0 5
    have k6 := getElem?_of_drop hs0 6
    simp only [List.cons_append, List.nil_append, List.getElem?_cons_zero,
      List.getElem?_cons_succ, Nat.add_zero] at k0 k1 k2 k3 k4 k5 k6
    by_cases hd : (s0._symbols.current.any fun d => d.1 == x1.value) = true
    · simp [analyseProgram, analyseProgramLoop, orReturn, analyseDeclVariableStatement,
        nextToken, unreadToken, k0, k1, Token.GetType, Token.GetValueString, hl1, hx1, mkErr,
        isLocalVariableDeclared, hd]
      exact ⟨_, _, ⟨rfl, rfl⟩, rfl, rfl⟩
    · simp [analyseProgram, analyseProgramLoop, orReturn, analyseDeclVariableStatement,
        declVariableTail, declareVariable, nextToken, unreadToken, k0, k1, k2, k3, k4, k5, k6,
        Token.GetType, Token.GetValueString, hl1, hx1, hc1, hsc1, hl2, hx2, hv, mkErr,
        isLocalVariableDeclared, hd, Nat.add_assoc]
      exact ⟨_, _, ⟨rfl, rfl⟩, rfl, rfl⟩

/-- C1, at a concrete input: `let x : int ;` in a scope that declares `x`. -/
theorem C1_same_scope_redeclaration_witness :
    ∃ s', analyseDeclVariableStatement standIns startItem (analyserWith (letXInt 0) tableWithX)
        = Except.ok (some ⟨(1, 1), ErrorCode.ErrDuplicateDeclaration⟩, s')
      ∧ s'._symbols = tableWithX :=
  (C1_same_scope_redeclaration standIns startItem (analyserWith (letXInt 0) tableWithX)
    (tok TokenType.LET "let" 0) (tok TokenType.IDENTIFIER "x" 1) _ rfl (by decide)
    (by decide)).1 (by decide)

/-- C4. A constant needs an initialiser: on `const x : T` with `x` not declared in the
current scope, when the next token is absent or is not `=`, `analyseDeclConstStatement`
returns `ErrConstantNeedValue` (at the token read there, or at `T` when the stream has
ended) and leaves the symbol table unchanged. -/
theorem C4_constant_needs_value (c : Collab) (func : FunctionItem) (s : Analyser)
    (t1 t2 t3 t4 : Token) (rest : List Token)
    (hs : s._tokens.drop s._offset = t1 :: t2 :: t3 :: t4 :: rest)
    (h1 : t1.type = TokenType.CONST) (h2 : t2.type = TokenType.IDENTIFIER)
    (hx : isLocalVariableDeclared s t2.value = false)
    (h3 : t3.type = TokenType.COLON)
    (h5 : ∀ t5, rest.head? = some t5 → t5.type ≠ TokenType.ASSIGN) :
    ∃ s', analyseDeclConstStatement c func s
        = Except.ok (some ⟨(match rest.head? with
                            | some t5 => (t5.line, t5.column)
                            | none => (t4.line, t4.column)),
                           ErrorCode.ErrConstantNeedValue⟩, s')
      ∧ s'._symbols = s._symbols := by
  have g0 := getElem?_of_drop hs 0
  have g1 := getElem?_of_drop hs 1
  have g2 := getElem?_of_drop hs 2
  have g3 := getElem?_of_drop hs 3
  have g4 := getElem?_of_drop hs 4
  simp only [List.getElem?_cons_zero, List.getElem?_cons_succ, Nat.add_zero] at g0 g1 g2 g3 g4
  simp only [isLocalVariableDeclared] at hx
  cases rest with
  | nil =>
    simp [analyseDeclConstStatement, nextToken, g0, g1, g2, g3, Token.GetType,
      Token.GetValueString, h1, h2, h3, mkErr, isLocalVariableDeclared, hx,
      Nat.add_assoc, g4]
  | cons t5 r =>
    have h5' : t5.type ≠ TokenType.ASSIGN := h5 t5 rfl
    simp [analyseDeclConstStatement, nextToken, g0, g1, g2, g3, Token.GetType,
      Token.GetValueString, h1, h2, h3, h5', mkErr, isLocalVariableDeclared, hx,
      Nat.add_assoc, g4]

/-- C4, at a concrete input: `const x : int ;` yields `ErrConstantNeedValue`. -/
theorem C4_constant_needs_value_witness :
    ∃ s', analyseDeclConstStatement standIns startItem (initAnalyser constXInt)
        = Except.ok (some ⟨(1, 4), ErrorCode.ErrConstantNeedValue⟩, s')
      ∧ s'._symbols = (initAnalyser constXInt)._symbols :=
  C4_constant_needs_value standIns startItem (initAnalyser constXInt)
    (tok TokenType.CONST "const" 0) (tok TokenType.IDENTIFIER "x" 1)
    (tok TokenType.COLON ":" 2) (tok TokenType.INT "int" 3)
    [tok TokenType.SEMICOLON ";" 4] rfl (by decide) (by decide) (by decide) (by decide)
    (by decide)

/-- C5. A variable declaration without initialiser succeeds: on `let x : T ;` with `x`
not declared in the current scope and `T` any one token (so also for the type keywords
`INT` and `DOUBLE`), `analyseDeclVariableStatement` returns success; the state it
leaves is the same for every expression analyser (none is called): five tokens read,
`x` added to the current scope as a non-constant variable of type `T`, nothing else
changed. -/
theorem C5_let_without_initialiser (c : Collab) (func : FunctionItem) (s : Analyser)
    (t1 t2 t3 t4 t5 : Token) (rest : List Token)
    (hs : s._tokens.drop s._offset = t1 :: t2 :: t3 :: t4 :: t5 :: rest)
    (h1 : t1.type = TokenType.LET) (h2 : t2.type = TokenType.IDENTIFIER)
    (hx : isLocalVariableDeclared s t2.value = false)
    (h3 : t3.type = TokenType.COLON)
    (h5 : t5.type = TokenType.SEMICOLON) :
    ∃ s', analyseDeclVariableStatement c func s = Except.ok (none, s')
      ∧ s' = { s with
          _offset := s._offset + 5
          _current_pos := (t5.line, t5.column)
          _calls := s._calls ++ [CursorCall.nextSome, CursorCall.nextSome,
            CursorCall.nextSome, CursorCall.nextSome, CursorCall.nextSome]
          _symbols :=
            { current := s._symbols.current ++ [(t2.value, { is_const := false, type := t4.type })]
              outer := s._symbols.outer } }
      ∧ isLocalVariableDeclared s' t2.value = true
      ∧ lookup s' t2.value = some { is_const := false, type := t4.type } := by
  have g0 := getElem?_of_drop hs 0
  have g1 := getElem?_of_drop hs 1
  have g2 := getElem?_of_drop hs 2
  have g3 := getElem?_of_drop hs 3
  have g4 := getElem?_of_drop hs 4
  simp only [List.getElem?_cons_zero, List.getElem?_cons_succ, Nat.add_zero] at g0 g1 g2 g3 g4
  simp only [isLocalVariableDeclared] at hx
  refine ⟨_, ?_, rfl, ?_, ?_⟩
  · simp [analyseDeclVariableStatement, declVariableTail, declareVariable, nextToken, g0, g1,
      g2, g3, g4, Token.GetType, Token.GetValueString, h1, h2, h3, h5, mkErr,
      isLocalVariableDeclared, hx, Nat.add_assoc]
  · simp [isLocalVariableDeclared]
  · simp [lookup]

/-- C5, at a concrete input: `let x : int ;` from a fresh analyser. -/
theorem C5_let_without_initialiser_witness :
    ∃ s', analyseDeclVariableStatement standIns startItem (initAnalyser (letXInt 0))
        = Except.ok (none, s')
      ∧ s' = { initAnalyser (letXInt 0) with
          _offset := 0 + 5
          _current_pos := (1, 4)
          _calls := [] ++ [CursorCall.nextSome, CursorCall.nextSome,
            CursorCall.nextSome, CursorCall.nextSome, CursorCall.nextSome]
          _symbols :=
            { current := [] ++ [("x", { is_const := false, type := TokenType.INT })]
              outer := [] } }
      ∧ isLocalVariableDeclared s' "x" = true
      ∧ lookup s' "x" = some { is_const := false, type := TokenType.INT } :=
  C5_let_without_initialiser standIns startItem (initAnalyser (letXInt 0))
    (tok TokenType.LET "let" 0) (tok TokenType.IDENTIFIER "x" 1)
    (tok TokenType.COLON ":" 2) (tok TokenType.INT "int" 3)
    (tok TokenType.SEMICOLON ";" 4) [] rfl (by decide) (by decide) (by decide)
    (by decide) (by decide)

/-- C9. A missing colon is reported as `ErrNeedColon`: on `let x` or `const x` with `x`
not declared in the current scope, when the next token is absent or is not `:`, the
declaration procedure returns `ErrNeedColon` at the position of the token read where
`:` was expected (the position is still that of `x` when the stream has ended), and
the symbol table is unchanged. -/
theorem C9_missing_colon (c : Collab) (func : FunctionItem) (s : Analyser)
    (t1 t2 : Token) (rest : List Token)
    (hs : s._tokens.drop s._offset = t1 :: t2 :: rest)
    (h2 : t2.type = TokenType.IDENTIFIER)
    (hx : isLocalVariableDeclared s t2.value = false)
    (h3 : ∀ t3, rest.head? = some t3 → t3.type ≠ TokenType.COLON) :
    (t1.type = TokenType.LET →
      ∃ s', analyseDeclVariableStatement c func s
          = Except.ok (some ⟨(match rest.head? with
                              | some t3 => (t3.line, t3.column)
                              | none => (t2.line, t2.column)),
                             ErrorCode.ErrNeedColon⟩, s')
        ∧ s'._symbols = s._symbols)
    ∧ (t1.type = TokenType.CONST →
      ∃ s', analyseDeclConstStatement c func s
          = Except.ok (some ⟨(match rest.head? with
                              | some t3 => (t3.line, t3.column)
                              | none => (t2.line, t2.column)),
                             ErrorCode.ErrNeedColon⟩, s')
        ∧ s'._symbols = s._symbols) := by
  have g0 := getElem?_of_drop hs 0
  have g1 := getElem?_of_drop hs 1
  have g2 := getElem?_of_drop hs 2
  simp only [List.getElem?_cons_zero, List.getElem?_cons_succ, Nat.add_zero] at g0 g1 g2
  simp only [isLocalVariableDeclared] at hx
  cases rest with
  | nil =>
    constructor <;> intro h1 <;>
    simp [analyseDeclVariableStatement, analyseDeclConstStatement, nextToken, g0, g1, g2,
      Token.GetType, Token.GetValueString, h1, h2, mkErr, isLocalVariableDeclared, hx,
      Nat.add_assoc]
  | cons t3 r =>
    have h3' : t3.type ≠ TokenType.COLON := h3 t3 rfl
    constructor <;> intro h1 <;>
    simp [analyseDeclVariableStatement, analyseDeclConstStatement, nextToken, g0, g1, g2,
      Token.GetType, Token.GetValueString, h1, h2, h3', mkErr, isLocalVariableDeclared, hx,
      Nat.add_assoc]

/-- C9, at a concrete input: `let x int ;` fails at `int`, where `:` was expected. -/
theorem C9_missing_colon_witness :
    ∃ s', analyseDeclVariableStatement standIns startItem
        (initAnalyser [tok TokenType.LET "let" 0, tok TokenType.IDENTIFIER "x" 1,
          tok TokenType.INT "int" 2, tok TokenType.SEMICOLON ";" 3])
        = Except.ok (some ⟨(1, 2), ErrorCode.ErrNeedColon⟩, s')
      ∧ s'._symbols = { current := [], outer := [] } :=
  (C9_missing_colon standIns startItem
    (initAnalyser [tok TokenType.LET "let" 0, tok TokenType.IDENTIFIER "x" 1,
      tok TokenType.INT "int" 2, tok TokenType.SEMICOLON ";" 3])
    (tok TokenType.LET "let" 0) (tok TokenType.IDENTIFIER "x" 1)
    [tok TokenType.INT "int" 2, tok TokenType.SEMICOLON ";" 3] rfl (by decide) (by decide)
    (by decide)).1 (by decide)

/-! ## What a run can change -/

theorem nextToken_cases {R : Analyser → Analyser → Prop} (hR : CursorClosed R)
    (s : Analyser) :
    (∃ s1, nextToken s = (none, s1) ∧ R s s1) ∨
    (∃ t s1, nextToken s = (some t, s1) ∧ R s s1 ∧ JustRead s1 t) := by
  have hn := hR.next s
  unfold nextToken at hn ⊢
  cases h : s._tokens[s._offset]? with
  | none => left; simp only [h] at hn ⊢; exact ⟨_, rfl, hn⟩
  | some t =>
    right; simp only [h] at hn ⊢
    exact ⟨_, _, rfl, hn, by simp [JustRead, h]⟩

/-- The footprint of `analyseDeclVariableStatement`: an error return has made only
cursor calls and calls of the assignment analyser; a success return has done the same
and then, right after reading `;`, declared an identifier not declared before. -/
theorem analyseDeclVariableStatement_steps {R : Analyser → Analyser → Prop}
    (hR : CursorClosed R) (c : Collab)
    (hA : ∀ a, R a (c.analyseAssignExpression a).2) (func : FunctionItem) (s : Analyser) :
    match analyseDeclVariableStatement c func s with
    | Except.error _ => True
    | Except.ok (some _, s') => R s s'
    | Except.ok (none, s') =>
      ∃ s7 x var semi, R s s7 ∧ s' = declareVariable s7 x var ∧ JustRead s7 semi
        ∧ semi.type = TokenType.SEMICOLON ∧ x.type = TokenType.IDENTIFIER
        ∧ var.is_const = false
        ∧ ∃ s2, R s s2 ∧ isLocalVariableDeclared s2 x.value = false := by
  rcases nextToken_cases hR s with ⟨s1, h1, r1⟩ | ⟨t1, s1, h1, r1, -⟩
  · simpa [analyseDeclVariableStatement, h1, mkErr] using r1
  by_cases c1 : t1.GetType = TokenType.LET
  swap
  · simpa [analyseDeclVariableStatement, h1, mkErr, c1] using r1
  rcases nextToken_cases hR s1 with ⟨s2, h2, r2⟩ | ⟨x, s2, h2, r2, -⟩
  · simpa [analyseDeclVariableStatement, h1, h2, mkErr, c1] using hR.trans _ _ _ r1 r2
  have r2 := hR.trans _ _ _ r1 r2
  by_cases c2 : x.GetType = TokenType.IDENTIFIER
  swap
  · simpa [analyseDeclVariableStatement, h1, h2, mkErr, c1, c2] using r2
  by_cases cx : isLocalVariableDeclared s2 x.GetValueString = true
  · simpa [analyseDeclVariableStatement, h1, h2, mkErr, c1, c2, cx] using r2
  rcases nextToken_cases hR s2 with ⟨s3, h3, r3⟩ | ⟨t3, s3, h3, r3, -⟩
  · simpa [analyseDeclVariableStatement, h1, h2, h3, mkErr, c1, c2, cx] using
      hR.trans _ _ _ r2 r3
  have r3 := hR.trans _ _ _ r2 r3
  by_cases c3 : t3.GetType = TokenType.COLON
  swap
  · simpa [analyseDeclVariableStatement, h1, h2, h3, mkErr, c1, c2, cx, c3] using r3
  rcases nextToken_cases hR s3 with ⟨s4, h4, r4⟩ | ⟨ty, s4, h4, r4, -⟩
  · simp [analyseDeclVariableStatement, h1, h2, h3, h4, mkErr, c1, c2, cx, c3]
  have r4 := hR.trans _ _ _ r3 r4
  -- the tail: the optional initialiser, the semicolon, the declaration
  have fin : ∀ (o : Option Token) (a : Analyser), R s a → (∀ t, o = some t → JustRead a t) →
      match (match o with
        | none => mkErr a ErrorCode.ErrNeedSemicolon
        | some t =>
          if t.GetType ≠ TokenType.SEMICOLON then mkErr a ErrorCode.ErrNeedSemicolon
          else Except.ok (none, declareVariable a x
            { is_const := false, type := ty.GetType })) with
      | Except.error _ => True
      | Except.ok (some _, s') => R s s'
      | Except.ok (none, s') =>
        ∃ s7 x var semi, R s s7 ∧ s' = declareVariable s7 x var ∧ JustRead s7 semi
          ∧ semi.type = TokenType.SEMICOLON ∧ x.type = TokenType.IDENTIFIER
          ∧ var.is_const = false
          ∧ ∃ s2, R s s2 ∧ isLocalVariableDeclared s2 x.value = false := by
    intro o a ra hj
    cases o with
    | none => simpa [mkErr] using ra
    | some t =>
      by_cases ct : t.GetType = TokenType.SEMICOLON
      · simp only [ct, ne_eq, not_true, if_false]
        exact ⟨a, x, _, t, ra, rfl, hj t rfl, ct, c2, rfl, s2, r2, by simpa using cx⟩
      · simpa [mkErr, ct] using ra
  simp only [analyseDeclVariableStatement, h1, h2, h3, h4, c1, c2, cx, c3, ne_eq,
    not_true, if_false, Bool.false_eq_true, declVariableTail]
  rcases nextToken_cases hR s4 with ⟨s5, h5, r5⟩ | ⟨t5, s5, h5, r5, j5⟩
  · simp only [h5]
    exact fin none s5 (hR.trans _ _ _ r4 r5) (by simp)
  have r5 := hR.trans _ _ _ r4 r5
  simp only [h5]
  by_cases c5 : t5.GetType = TokenType.ASSIGN
  swap
  · simp only [c5, if_false]
    exact fin (some t5) s5 r5 (by intro t ht; cases ht; exact j5)
  simp only [c5, if_true]
  have r6 := hR.trans _ _ _ (hR.trans _ _ _ r5 (hR.unread s5)) (hA (unreadToken s5))
  rcases h6 : c.analyseAssignExpression (unreadToken s5) with ⟨_ | e, s6⟩
  swap
  · rw [h6] at r6; simpa using r6
  rw [h6] at r6
  simp only
  rcases nextToken_cases hR s6 with ⟨s7, h7, r7⟩ | ⟨t7, s7, h7, r7, j7⟩
  · rw [h7]
    exact fin none s7 (hR.trans _ _ _ r6 r7) (by simp)
  · rw [h7]
    exact fin (some t7) s7 (hR.trans _ _ _ r6 r7) (by intro t ht; cases ht; exact j7)

/-- The footprint of `analyseDeclConstStatement`, as for the variable declaration. -/
theorem analyseDeclConstStatement_steps {R : Analyser → Analyser → Prop}
    (hR : CursorClosed R) (c : Collab)
    (hA : ∀ a, R a (c.analyseAssignExpression a).2) (func : FunctionItem) (s : Analyser) :
    match analyseDeclConstStatement c func s with
    | Except.error _ => True
    | Except.ok (some _, s') => R s s'
    | Except.ok (none, s') =>
      ∃ s7 x var semi, R s s7 ∧ s' = declareVariable s7 x var ∧ JustRead s7 semi
        ∧ semi.type = TokenType.SEMICOLON ∧ x.type = TokenType.IDENTIFIER
        ∧ var.is_const = true
        ∧ ∃ s2, R s s2 ∧ isLocalVariableDeclared s2 x.value = false := by
  rcases nextToken_cases hR s with ⟨s1, h1, r1⟩ | ⟨t1, s1, h1, r1, -⟩
  · simpa [analyseDeclConstStatement, h1, mkErr] using r1
  by_cases c1 : t1.GetType = TokenType.CONST
  swap
  · simpa [analyseDeclConstStatement, h1, mkErr, c1] using r1
  rcases nextToken_cases hR s1 with ⟨s2, h2, r2⟩ | ⟨x, s2, h2, r2, -⟩
  · simpa [analyseDeclConstStatement, h1, h2, mkErr, c1] using hR.trans _ _ _ r1 r2
  have r2 := hR.trans _ _ _ r1 r2
  by_cases c2 : x.GetType = TokenType.IDENTIFIER
  swap
  · simpa [analyseDeclConstStatement, h1, h2, mkErr, c1, c2] using r2
  by_cases cx : isLocalVariableDeclared s2 x.GetValueString = true
  · simpa [analyseDeclConstStatement, h1, h2, mkErr, c1, c2, cx] using r2
  rcases nextToken_cases hR s2 with ⟨s3, h3, r3⟩ | ⟨t3, s3, h3, r3, -⟩
  · simpa [analyseDeclConstStatement, h1, h2, h3, mkErr, c1, c2, cx] using
      hR.trans _ _ _ r2 r3
  have r3 := hR.trans _ _ _ r2 r3
  by_cases c3 : t3.GetType = TokenType.COLON
  swap
  · simpa [analyseDeclConstStatement, h1, h2, h3, mkErr, c1, c2, cx, c3] using r3
  rcases nextToken_cases hR s3 with ⟨s4, h4, r4⟩ | ⟨ty, s4, h4, r4, -⟩
  · simp [analyseDeclConstStatement, h1, h2, h3, h4, mkErr, c1, c2, cx, c3]
  have r4 := hR.trans _ _ _ r3 r4
  rcases nextToken_cases hR s4 with ⟨s5, h5, r5⟩ | ⟨t5, s5, h5, r5, -⟩
  · simpa [analyseDeclConstStatement, h1, h2, h3, h4, h5, mkErr, c1, c2, cx, c3] using
      hR.trans _ _ _ r4 r5
  have r5 := hR.trans _ _ _ r4 r5
  by_cases c5 : t5.GetType = TokenType.ASSIGN
  swap
  · simpa [analyseDeclConstStatement, h1, h2, h3, h4, h5, mkErr, c1, c2, cx, c3, c5] using r5
  have r6 := hR.trans _ _ _ (hR.trans _ _ _ r5 (hR.unread s5)) (hA (unreadToken s5))
  rcases h6 : c.analyseAssignExpression (unreadToken s5) with ⟨_ | e, s6⟩
  swap
  · rw [h6] at r6
    simpa [analyseDeclConstStatement, h1, h2, h3, h4, h5, h6, mkErr, c1, c2, cx, c3, c5]
      using r6
  rw [h6] at r6
  rcases nextToken_cases hR s6 with ⟨s7, h7, r7⟩ | ⟨t7, s7, h7, r7, j7⟩
  · simpa [analyseDeclConstStatement, h1, h2, h3, h4, h5, h6, h7, mkErr, c1, c2, cx, c3, c5]
      using hR.trans _ _ _ r6 r7
  have r7 := hR.trans _ _ _ r6 r7
  by_cases c7 : t7.GetType = TokenType.SEMICOLON
  swap
  · simpa [analyseDeclConstStatement, h1, h2, h3, h4, h5, h6, h7, mkErr, c1, c2, cx, c3, c5,
      c7] using r7
  simp only [analyseDeclConstStatement, h1, h2, h3, h4, h5, h6, h7, c1, c2, cx, c3, c5, c7,
    ne_eq, not_true, if_false, Bool.false_eq_true, beq_iff_eq]
  exact ⟨s7, x, _, t7, r7, rfl, j7, c7, c2, rfl, s2, r2, by simpa using cx⟩

/-- The relation "same symbol table" holds across every cursor call. -/
theorem sameSymbols_closed : CursorClosed (fun a b => b._symbols = a._symbols) where
  refl := fun _ => rfl
  trans := fun _ _ _ h1 h2 => h2.trans h1
  next := fun s => by unfold nextToken; split <;> rfl
  unread := fun _ => rfl

theorem declareVariable_fresh {s s7 : Analyser} {x : Token} (var : VariableItem)
    (h7 : s7._symbols = s._symbols) (hx : isLocalVariableDeclared s x.value = false) :
    (declareVariable s7 x var)._symbols
      = { current := s._symbols.current ++ [(x.value, var)], outer := s._symbols.outer } := by
  have : isLocalVariableDeclared s7 x.value = false := by
    simpa [isLocalVariableDeclared, h7] using hx
  simp [declareVariable, Token.GetValueString, this, h7]

theorem oneTokenExpression_steps {R : Analyser → Analyser → Prop} (hR : CursorClosed R)
    (s : Analyser) : R s (oneTokenExpression s).2 := by
  rcases nextToken_cases hR s with ⟨s1, h1, r1⟩ | ⟨t1, s1, h1, r1, -⟩
  · simpa [oneTokenExpression, h1] using r1
  · simp only [oneTokenExpression, h1]
    split <;> exact r1

theorem assignOneToken_steps {R : Analyser → Analyser → Prop} (hR : CursorClosed R)
    (s : Analyser) : R s (assignOneToken s).2 := by
  rcases nextToken_cases hR s with ⟨s1, h1, r1⟩ | ⟨t1, s1, h1, r1, -⟩
  · simpa [assignOneToken, h1] using r1
  · simp only [assignOneToken, h1]
    split
    · exact hR.trans _ _ _ r1 (oneTokenExpression_steps hR s1)
    · exact r1

theorem standIns_assign_symbols (a : Analyser) :
    (standIns.analyseAssignExpression a).2._symbols = a._symbols :=
  assignOneToken_steps sameSymbols_closed a

/-- C10. Declarations are atomic: provided the assignment analyser leaves the symbol
table alone, a declaration procedure that returns an error has left the symbol table
as it was; one that returns success has made exactly one change to it, the call of
`declareVariable` right after reading the terminating `;`, which adds the identifier
(not declared before) to the current scope. -/
theorem C10_declarations_atomic (c : Collab) (func : FunctionItem) (s : Analyser)
    (hA : ∀ a, (c.analyseAssignExpression a).2._symbols = a._symbols) :
    (∀ e s', analyseDeclVariableStatement c func s = Except.ok (some e, s') →
        s'._symbols = s._symbols)
    ∧ (∀ e s', analyseDeclConstStatement c func s = Except.ok (some e, s') →
        s'._symbols = s._symbols)
    ∧ (∀ s', analyseDeclVariableStatement c func s = Except.ok (none, s') →
        ∃ s7 x var semi, s7._symbols = s._symbols ∧ s' = declareVariable s7 x var
          ∧ JustRead s7 semi ∧ semi.type = TokenType.SEMICOLON
          ∧ x.type = TokenType.IDENTIFIER ∧ isLocalVariableDeclared s x.value = false
          ∧ s'._symbols = { current := s._symbols.current ++ [(x.value, var)],
                            outer := s._symbols.outer })
    ∧ (∀ s', analyseDeclConstStatement c func s = Except.ok (none, s') →
        ∃ s7 x var semi, s7._symbols = s._symbols ∧ s' = declareVariable s7 x var
          ∧ JustRead s7 semi ∧ semi.type = TokenType.SEMICOLON
          ∧ x.type = TokenType.IDENTIFIER ∧ isLocalVariableDeclared s x.value = false
          ∧ s'._symbols = { current := s._symbols.current ++ [(x.value, var)],
                            outer := s._symbols.outer }) := by
  have hv := analyseDeclVariableStatement_steps sameSymbols_closed c hA func s
  have hc := analyseDeclConstStatement_steps sameSymbols_closed c hA func s
  refine ⟨?_, ?_, ?_, ?_⟩
  · intro e s' h; rw [h] at hv; exact hv
  · intro e s' h; rw [h] at hc; exact hc
  · intro s' h; rw [h] at hv
    obtain ⟨s7, x, var, semi, a, b, d, e, f, -, s2, g, k⟩ := hv
    have hx : isLocalVariableDeclared s x.value = false := by
      simpa [isLocalVariableDeclared, g] using k
    exact ⟨s7, x, var, semi, a, b, d, e, f, hx, b ▸ declareVariable_fresh var a hx⟩
  · intro s' h; rw [h] at hc
    obtain ⟨s7, x, var, semi, a, b, d, e, f, -, s2, g, k⟩ := hc
    have hx : isLocalVariableDeclared s x.value = false := by
      simpa [isLocalVariableDeclared, g] using k
    exact ⟨s7, x, var, semi, a, b, d, e, f, hx, b ▸ declareVariable_fresh var a hx⟩

/-- C10, at a concrete input: `const x : int ;` fails and declares nothing. -/
theorem C10_declarations_atomic_witness :
    (∀ a, (standIns.analyseAssignExpression a).2._symbols = a._symbols)
    ∧ ∀ e s', analyseDeclConstStatement standIns startItem (initAnalyser constXInt)
        = Except.ok (some e, s') → s'._symbols = (initAnalyser constXInt)._symbols :=
  ⟨standIns_assign_symbols,
   (C10_declarations_atomic standIns startItem (initAnalyser constXInt)
      standIns_assign_symbols).2.1⟩

theorem RetRel_mkErr {R : Analyser → Analyser → Prop} {s a : Analyser} (code : ErrorCode)
    (h : R s a) : RetRel R s (some (mkErr a code)) := h

theorem RetRel_ok {R : Analyser → Analyser → Prop} {s a : Analyser}
    (o : Option CompilationError) (h : R s a) : RetRel R s (some (Except.ok (o, a))) := h

theorem RetRel_orReturn {R : Analyser → Analyser → Prop} (hR : CursorClosed R)
    {s a : Analyser} {r : Option Ret} {k : Analyser → Option Ret}
    (h1 : R s a) (hr : RetRel R a r) (hk : ∀ s2, R s s2 → RetRel R s (k s2)) :
    RetRel R s (orReturn r k) := by
  match r, hr with
  | none, _ => trivial
  | some (Except.error _), _ => trivial
  | some (Except.ok (some _, s')), hr => exact hR.trans _ _ _ h1 hr
  | some (Except.ok (none, s')), hr => exact hk s' (hR.trans _ _ _ h1 hr)

theorem analyseExprStatement_steps {R : Analyser → Analyser → Prop} (hR : CursorClosed R)
    (c : Collab) (hE : ∀ a, R a (c.analyseExpression a).2) (func : FunctionItem)
    (s : Analyser) : RetRel R s (some (analyseExprStatement c func s)) := by
  have r1 := hE s
  rcases h1 : c.analyseExpression s with ⟨_ | e, s1⟩ <;> rw [h1] at r1
  swap
  · simpa [analyseExprStatement, h1, RetRel] using r1
  rcases nextToken_cases hR s1 with ⟨s2, h2, r2⟩ | ⟨t2, s2, h2, r2, -⟩
  · simpa [analyseExprStatement, h1, h2, RetRel, mkErr] using hR.trans _ _ _ r1 r2
  · simp only [analyseExprStatement, h1, h2]
    split
    · exact hR.trans _ _ _ r1 r2
    · exact hR.trans _ _ _ r1 r2

theorem analyseReturnStatement_steps {R : Analyser → Analyser → Prop} (hR : CursorClosed R)
    (c : Collab) (hE : ∀ a, R a (c.analyseExpression a).2) (func : FunctionItem)
    (s : Analyser) : RetRel R s (some (analyseReturnStatement c func s)) := by
  have fin : ∀ (o : Option Token) (a : Analyser), R s a →
      RetRel R s (some (match o with
        | some t =>
          if t.GetType = TokenType.SEMICOLON then Except.ok (none, a)
          else mkErr a ErrorCode.ErrNeedSemicolon
        | none => mkErr a ErrorCode.ErrNeedSemicolon)) := by
    intro o a ra
    cases o with
    | none => exact ra
    | some t => simp only; split <;> exact ra
  have pe : ∀ a, R s a →
      RetRel R s (some (match c.analyseExpression (unreadToken a) with
        | (some e, s1) => Except.ok (some e, s1)
        | (none, s1) =>
          (match (nextToken s1).1 with
            | some t =>
              if t.GetType = TokenType.SEMICOLON then Except.ok (none, (nextToken s1).2)
              else mkErr (nextToken s1).2 ErrorCode.ErrNeedSemicolon
            | none => mkErr (nextToken s1).2 ErrorCode.ErrNeedSemicolon))) := by
    intro a ra
    have r1 := hR.trans _ _ _ (hR.trans _ _ _ ra (hR.unread a)) (hE (unreadToken a))
    rcases h1 : c.analyseExpression (unreadToken a) with ⟨_ | e, s1⟩ <;> rw [h1] at r1
    · exact fin _ _ (hR.trans _ _ _ r1 (hR.next s1))
    · exact r1
  rcases nextToken_cases hR s with ⟨s1, h1, r1⟩ | ⟨t1, s1, h1, r1, -⟩
  · simpa [analyseReturnStatement, h1, RetRel, mkErr] using r1
  by_cases c1 : t1.GetType = TokenType.RETURN
  swap
  · simpa [analyseReturnStatement, h1, RetRel, mkErr, c1] using r1
  rcases nextToken_cases hR s1 with ⟨s2, h2, r2⟩ | ⟨t2, s2, h2, r2, -⟩
  · simp only [analyseReturnStatement, h1, h2, c1, ne_eq, not_true, if_false]
    exact pe s2 (hR.trans _ _ _ r1 r2)
  by_cases c2 : t2.GetType = TokenType.SEMICOLON
  · simp only [analyseReturnStatement, h1, h2, c1, c2, ne_eq, not_true, if_false, if_true]
    exact hR.trans _ _ _ r1 r2
  · simp only [analyseReturnStatement, h1, h2, c1, c2, ne_eq, not_true, if_false,
      not_false_eq_true, if_true]
    exact pe s2 (hR.trans _ _ _ r1 r2)

theorem analyseDeclVariableStatement_rel {R : Analyser → Analyser → Prop}
    (hR : CursorClosed R) (c : Collab) (hA : ∀ a, R a (c.analyseAssignExpression a).2)
    (hD : ∀ a x v, R a (declareVariable a x v)) (func : FunctionItem) (s : Analyser) :
    RetRel R s (some (analyseDeclVariableStatement c func s)) := by
  have h := analyseDeclVariableStatement_steps hR c hA func s
  match hr : analyseDeclVariableStatement c func s with
  | Except.error _ => trivial
  | Except.ok (some _, s') => rw [hr] at h; exact h
  | Except.ok (none, s') =>
    rw [hr] at h
    obtain ⟨s7, x, var, -, r7, rfl, -⟩ := h
    exact hR.trans _ _ _ r7 (hD _ _ _)

theorem analyseDeclConstStatement_rel {R : Analyser → Analyser → Prop}
    (hR : CursorClosed R) (c : Collab) (hA : ∀ a, R a (c.analyseAssignExpression a).2)
    (hD : ∀ a x v, R a (declareVariable a x v)) (func : FunctionItem) (s : Analyser) :
    RetRel R s (some (analyseDeclConstStatement c func s)) := by
  have h := analyseDeclConstStatement_steps hR c hA func s
  match hr : analyseDeclConstStatement c func s with
  | Except.error _ => trivial
  | Except.ok (some _, s') => rw [hr] at h; exact h
  | Except.ok (none, s') =>
    rw [hr] at h
    obtain ⟨s7, x, var, -, r7, rfl, -⟩ := h
    exact hR.trans _ _ _ r7 (hD _ _ _)

/-- Every state returned by a statement procedure is related to the start state by any
relation that holds across cursor calls, the expression analysers and
`declareVariable`. -/
theorem statements_steps {R : Analyser → Analyser → Prop} (hR : CursorClosed R)
    (c : Collab) (hE : ∀ a, R a (c.analyseExpression a).2)
    (hA : ∀ a, R a (c.analyseAssignExpression a).2)
    (hD : ∀ a x v, R a (declareVariable a x v)) (func : FunctionItem) (fuel : Nat) :
    (∀ s, RetRel R s (analyseStatement c func fuel s))
    ∧ (∀ s, RetRel R s (analyseIfStatement c func fuel s))
    ∧ (∀ s, RetRel R s (analyseWhileStatement c func fuel s))
    ∧ (∀ s, RetRel R s (analyseBlockStatement c func fuel s))
    ∧ (∀ s, RetRel R s (analyseBlockStatementLoop c func fuel s)) := by
  induction fuel with
  | zero =>
    refine ⟨?_, ?_, ?_, ?_, ?_⟩ <;> intro s <;>
      simp [analyseStatement, analyseIfStatement, analyseWhileStatement,
        analyseBlockStatement, analyseBlockStatementLoop, RetRel]
  | succ n ih =>
    obtain ⟨ihS, ihI, ihW, ihB, ihL⟩ := ih
    have keep : ∀ {s a : Analyser} {r : Option Ret}, R s a → RetRel R a r →
        RetRel R s (orReturn r (fun s2 => some (Except.ok (none, s2)))) :=
      fun h1 hr => RetRel_orReturn hR h1 hr (fun _ h => h)
    refine ⟨?_, ?_, ?_, ?_, ?_⟩
    · intro s
      rcases nextToken_cases hR s with ⟨s1, h1, r1⟩ | ⟨t1, s1, h1, r1, -⟩
      · simpa [analyseStatement, h1, RetRel, mkErr] using r1
      have ru := hR.trans _ _ _ r1 (hR.unread s1)
      simp only [analyseStatement, h1]
      split
      · exact keep ru (ihI _)
      · exact keep ru (ihW _)
      · exact keep ru (analyseReturnStatement_steps hR c hE func _)
      · exact keep ru (ihB _)
      · exact keep ru (analyseDeclVariableStatement_rel hR c hA hD func _)
      · exact keep ru (analyseDeclConstStatement_rel hR c hA hD func _)
      · exact r1
      · exact keep ru (analyseExprStatement_steps hR c hE func _)
    · intro s
      rcases nextToken_cases hR s with ⟨s1, h1, r1⟩ | ⟨t1, s1, h1, r1, -⟩
      · simpa [analyseIfStatement, h1, RetRel, mkErr] using r1
      simp only [analyseIfStatement, h1]
      split
      · exact r1
      refine RetRel_orReturn hR r1 (hE s1) (fun s2 r2 => ?_)
      refine RetRel_orReturn hR r2 (ihB s2) (fun s3 r3 => ?_)
      rcases nextToken_cases hR s3 with ⟨s4, h4, r4⟩ | ⟨t4, s4, h4, r4, -⟩
      · simp only [h4]
        exact hR.trans _ _ _ (hR.trans _ _ _ r3 r4) (hR.unread s4)
      · simp only [h4]
        split
        · exact hR.trans _ _ _ r3 r4
        · exact hR.trans _ _ _ (hR.trans _ _ _ r3 r4) (hR.unread s4)
    · intro s
      rcases nextToken_cases hR s with ⟨s1, h1, r1⟩ | ⟨t1, s1, h1, r1, -⟩
      · simpa [analyseWhileStatement, h1, RetRel, mkErr] using r1
      simp only [analyseWhileStatement, h1]
      split
      · exact r1
      refine RetRel_orReturn hR r1 (hE s1) (fun s2 r2 => ?_)
      refine RetRel_orReturn hR r2 (ihB s2) (fun s3 r3 => ?_)
      rcases nextToken_cases hR s3 with ⟨s4, h4, r4⟩ | ⟨t4, s4, h4, r4, -⟩
      · simp only [h4]
        exact hR.trans _ _ _ (hR.trans _ _ _ r3 r4) (hR.unread s4)
      · simp only [h4]
        split
        · exact keep (hR.trans _ _ _ r3 r4) (ihB s4)
        · exact hR.trans _ _ _ (hR.trans _ _ _ r3 r4) (hR.unread s4)
    · intro s
      rcases nextToken_cases hR s with ⟨s1, h1, r1⟩ | ⟨t1, s1, h1, r1, -⟩
      · simpa [analyseBlockStatement, h1, RetRel, mkErr] using r1
      simp only [analyseBlockStatement, h1]
      split
      · exact r1
      · have := ihL s1
        revert this
        cases analyseBlockStatementLoop c func n s1 with
        | none => exact fun _ => trivial
        | some r =>
          cases r with
          | error _ => exact fun _ => trivial
          | ok p => exact fun h => hR.trans _ _ _ r1 h
    · intro s
      simp only [analyseBlockStatementLoop]
      refine RetRel_orReturn hR (hR.refl s) (ihS s) (fun s1 r1 => ?_)
      have tail : ∀ a, R s a → RetRel R s (analyseBlockStatementLoop c func n a) := by
        intro a ra
        have := ihL a
        revert this
        cases analyseBlockStatementLoop c func n a with
        | none => exact fun _ => trivial
        | some r =>
          cases r with
          | error _ => exact fun _ => trivial
          | ok p => exact fun h => hR.trans _ _ _ ra h
      rcases nextToken_cases hR s1 with ⟨s2, h2, r2⟩ | ⟨t2, s2, h2, r2, -⟩
      · simp only [h2]
        exact tail _ (hR.trans _ _ _ (hR.trans _ _ _ r1 r2) (hR.unread s2))
      · simp only [h2]
        split
        · exact hR.trans _ _ _ r1 r2
        · exact tail _ (hR.trans _ _ _ (hR.trans _ _ _ r1 r2) (hR.unread s2))

/-! ## Blocks and scopes -/

theorem symExt_closed : CursorClosed SymExt where
  refl := fun _ => ⟨rfl, List.prefix_refl _⟩
  trans := fun _ _ _ h1 h2 => ⟨h2.1.trans h1.1, h1.2.trans h2.2⟩
  next := fun s => by
    have h := sameSymbols_closed.next s
    simp only at h
    exact ⟨by rw [h], by rw [h]⟩
  unread := fun _ => ⟨rfl, List.prefix_refl _⟩

theorem symExt_declareVariable (a : Analyser) (x : Token) (v : VariableItem) :
    SymExt a (declareVariable a x v) := by
  unfold declareVariable
  split
  · exact ⟨rfl, List.prefix_refl _⟩
  · exact ⟨rfl, List.prefix_append _ _⟩

/-- The run of `analyseBlockStatement` on `{ let a : T ; }` when `a` is not declared in
the current scope. -/
theorem block_let_fresh (c : Collab) (func : FunctionItem) (s : Analyser)
    (lb l a col ty semi rb : Token) (rest : List Token) (n : Nat)
    (hs : s._tokens.drop s._offset = lb :: l :: a :: col :: ty :: semi :: rb :: rest)
    (hlb : lb.type = TokenType.LEFT_BRACE) (hl : l.type = TokenType.LET)
    (ha : a.type = TokenType.IDENTIFIER) (hcol : col.type = TokenType.COLON)
    (hsemi : semi.type = TokenType.SEMICOLON) (hrb : rb.type = TokenType.RIGHT_BRACE)
    (hx : isLocalVariableDeclared s a.value = false) :
    ∃ s', analyseBlockStatement c func (n + 3) s = some (Except.ok (none, s'))
      ∧ s'._symbols = { current := s._symbols.current
                          ++ [(a.value, { is_const := false, type := ty.type })],
                        outer := s._symbols.outer }
      ∧ s'._offset = s._offset + 7 := by
  have g0 := getElem?_of_drop hs 0
  have g1 := getElem?_of_drop hs 1
  have g2 := getElem?_of_drop hs 2
  have g3 := getElem?_of_drop hs 3
  have g4 := getElem?_of_drop hs 4
  have g5 := getElem?_of_drop hs 5
  have g6 := getElem?_of_drop hs 6
  simp only [List.getElem?_cons_zero, List.getElem?_cons_succ, Nat.add_zero]
    at g0 g1 g2 g3 g4 g5 g6
  simp only [isLocalVariableDeclared] at hx
  simp [analyseBlockStatement, analyseBlockStatementLoop, analyseStatement, orReturn,
    analyseDeclVariableStatement, declVariableTail, declareVariable, nextToken, unreadToken,
    g0, g1, g2, g3, g4, g5, g6, Token.GetType, Token.GetValueString, hlb, hl, ha, hcol,
    hsemi, hrb, mkErr, isLocalVariableDeclared, hx, Nat.add_assoc]

/-- The run of `analyseBlockStatement` on `{ let a` when `a` is declared in the current
scope. -/
theorem block_let_declared (c : Collab) (func : FunctionItem) (s : Analyser)
    (lb l a : Token) (rest : List Token) (n : Nat)
    (hs : s._tokens.drop s._offset = lb :: l :: a :: rest)
    (hlb : lb.type = TokenType.LEFT_BRACE) (hl : l.type = TokenType.LET)
    (ha : a.type = TokenType.IDENTIFIER)
    (hx : isLocalVariableDeclared s a.value = true) :
    ∃ s', analyseBlockStatement c func (n + 3) s
        = some (Except.ok (some ⟨(a.line, a.column), ErrorCode.ErrDuplicateDeclaration⟩, s'))
      ∧ s'._symbols = s._symbols := by
  have g0 := getElem?_of_drop hs 0
  have g1 := getElem?_of_drop hs 1
  have g2 := getElem?_of_drop hs 2
  simp only [List.getElem?_cons_zero, List.getElem?_cons_succ, Nat.add_zero] at g0 g1 g2
  simp only [isLocalVariableDeclared] at hx
  simp [analyseBlockStatement, analyseBlockStatementLoop, analyseStatement, orReturn,
    analyseDeclVariableStatement, nextToken, unreadToken,
    g0, g1, g2, Token.GetType, Token.GetValueString, hlb, hl, ha,
    mkErr, isLocalVariableDeclared, hx, Nat.add_assoc]

/-- C2 as stated fails: with `x` declared in the scope that encloses the block,
`analyseBlockStatement` on `{ let x : int ; }` returns `ErrDuplicateDeclaration`, not
success. -/
theorem C2_shadowing_counterexample :
    isLocalVariableDeclared (analyserWith blockLetXInt tableWithX) "x" = true
    ∧ verdict (analyseBlockStatement standIns startItem 3
        (analyserWith blockLetXInt tableWithX))
      = some (Except.ok (some ⟨(1, 2), ErrorCode.ErrDuplicateDeclaration⟩)) := by
  constructor
  · decide
  · rfl

/-- C2, amended. `analyseBlockStatement` opens no scope of its own: on
`{ let a : T ; }` it returns success when `a` is not declared in the scope that is
current on entry (whatever the scopes further out declare), and returns
`ErrDuplicateDeclaration` at `a`, leaving the symbol table unchanged, when `a` is
declared there. -/
theorem C2_block_opens_no_scope (c : Collab) (func : FunctionItem) (s : Analyser)
    (lb l a col ty semi rb : Token) (rest : List Token) (n : Nat)
    (hs : s._tokens.drop s._offset = lb :: l :: a :: col :: ty :: semi :: rb :: rest)
    (hlb : lb.type = TokenType.LEFT_BRACE) (hl : l.type = TokenType.LET)
    (ha : a.type = TokenType.IDENTIFIER) (hcol : col.type = TokenType.COLON)
    (hsemi : semi.type = TokenType.SEMICOLON) (hrb : rb.type = TokenType.RIGHT_BRACE) :
    (isLocalVariableDeclared s a.value = false →
      ∃ s', analyseBlockStatement c func (n + 3) s = some (Except.ok (none, s')))
    ∧ (isLocalVariableDeclared s a.value = true →
      ∃ s', analyseBlockStatement c func (n + 3) s
          = some (Except.ok (some ⟨(a.line, a.column), ErrorCode.ErrDuplicateDeclaration⟩, s'))
        ∧ s'._symbols = s._symbols) := by
  constructor
  · intro hx
    obtain ⟨s', h, -⟩ := block_let_fresh c func s lb l a col ty semi rb rest n hs hlb hl ha
      hcol hsemi hrb hx
    exact ⟨s', h⟩
  · intro hx
    exact block_let_declared c func s lb l a _ n hs hlb hl ha hx

/-- C2, amended, at a concrete input: `x` is declared in the enclosing scope only, and
`{ let x : int ; }` succeeds. -/
theorem C2_block_opens_no_scope_witness :
    ∃ s', analyseBlockStatement standIns startItem (0 + 3)
        (analyserWith blockLetXInt tableWithOuterX) = some (Except.ok (none, s')) :=
  (C2_block_opens_no_scope standIns startItem (analyserWith blockLetXInt tableWithOuterX)
    (tok TokenType.LEFT_BRACE "\x7b" 0) (tok TokenType.LET "let" 1)
    (tok TokenType.IDENTIFIER "x" 2) (tok TokenType.COLON ":" 3)
    (tok TokenType.INT "int" 4) (tok TokenType.SEMICOLON ";" 5)
    (tok TokenType.RIGHT_BRACE "\x7d" 6) [] 0 rfl (by decide) (by decide) (by decide)
    (by decide) (by decide) (by decide)).1 (by decide)

/-- C3 as stated fails: `analyseBlockStatement` succeeds on `{ let x : int ; }` from a
state that declares nothing, and afterwards the symbol table has changed and lookup of
`x` finds the variable. -/
theorem C3_block_scope_counterexample :
    ∃ s', analyseBlockStatement standIns startItem 3 (initAnalyser blockLetXInt)
        = some (Except.ok (none, s'))
      ∧ lookup (initAnalyser blockLetXInt) "x" = none
      ∧ lookup s' "x" = some { is_const := false, type := TokenType.INT }
      ∧ s'._symbols ≠ (initAnalyser blockLetXInt)._symbols :=
  ⟨_, rfl, by decide, by decide, by decide⟩

/-- C3, amended. A block's declarations stay in the scope that was current on entry:
provided the expression analysers only extend the symbol table, whenever
`analyseBlockStatement` succeeds the enclosing scopes are as before and the current
scope has only gained declarations at its end; and after `{ let a : T ; }` with `a` not
declared on entry, `a` is in the current scope and lookup finds it, non-constant, of
type `T`. -/
theorem C3_block_declarations_remain (c : Collab) (func : FunctionItem) (fuel : Nat)
    (s s' : Analyser)
    (hE : ∀ a, SymExt a (c.analyseExpression a).2)
    (hA : ∀ a, SymExt a (c.analyseAssignExpression a).2)
    (h : analyseBlockStatement c func fuel s = some (Except.ok (none, s'))) :
    (s'._symbols.outer = s._symbols.outer ∧ s._symbols.current <+: s'._symbols.current)
    ∧ (∀ (lb l a col ty semi rb : Token) (rest : List Token) (n : Nat),
        s._tokens.drop s._offset = lb :: l :: a :: col :: ty :: semi :: rb :: rest →
        lb.type = TokenType.LEFT_BRACE → l.type = TokenType.LET →
        a.type = TokenType.IDENTIFIER → col.type = TokenType.COLON →
        semi.type = TokenType.SEMICOLON → rb.type = TokenType.RIGHT_BRACE →
        isLocalVariableDeclared s a.value = false →
        ∃ s2, analyseBlockStatement c func (n + 3) s = some (Except.ok (none, s2))
          ∧ isLocalVariableDeclared s2 a.value = true
          ∧ lookup s2 a.value = some { is_const := false, type := ty.type }) := by
  constructor
  · have := (statements_steps symExt_closed c hE hA symExt_declareVariable func fuel).2.2.2.1 s
    rw [h] at this
    exact this
  · intro lb l a col ty semi rb rest n hs hlb hl ha hcol hsemi hrb hx
    obtain ⟨s2, h2, hsym, -⟩ := block_let_fresh c func s lb l a col ty semi rb rest n hs hlb
      hl ha hcol hsemi hrb hx
    refine ⟨s2, h2, ?_, ?_⟩
    · simp [isLocalVariableDeclared, hsym]
    · simp [lookup, hsym]

theorem standIns_expression_symExt (a : Analyser) :
    SymExt a (standIns.analyseExpression a).2 :=
  oneTokenExpression_steps symExt_closed a

theorem standIns_assign_symExt (a : Analyser) :
    SymExt a (standIns.analyseAssignExpression a).2 :=
  assignOneToken_steps symExt_closed a

/-- C3, amended, at a concrete input: after `{ let x : int ; }` the current scope has
gained `x`. -/
theorem C3_block_declarations_remain_witness :
    afterBlockLetXInt._symbols.outer = (initAnalyser blockLetXInt)._symbols.outer
    ∧ (initAnalyser blockLetXInt)._symbols.current <+: afterBlockLetXInt._symbols.current :=
  (C3_block_declarations_remain standIns startItem 3 (initAnalyser blockLetXInt)
    afterBlockLetXInt standIns_expression_symExt standIns_assign_symExt rfl).1

/-! ## Program -/

/-- C6. Top-level dispatch rejects every other leading token: when the token read at
the start of an iteration of the program loop exists and is none of `FN`, `LET`,
`CONST`, the loop, and so `analyseProgram`, returns `ErrRecognized` at that token; the
token is pushed back (the next read returns it again), `_start` is not declared and
the symbol table is unchanged. This holds at the first token of a stream, and also in
the second iteration, after a declaration `let x : T ;` has been analysed. -/
theorem C6_top_level_rejects_other (c : Collab) (fuel : Nat) (s : Analyser) (t : Token)
    (rest : List Token)
    (hs : s._tokens.drop s._offset = t :: rest)
    (hfn : t.type ≠ TokenType.FN) (hlet : t.type ≠ TokenType.LET)
    (hconst : t.type ≠ TokenType.CONST) :
    (∃ s', analyseProgramLoop c startItem (fuel + 1) s
        = some (Except.ok (some ⟨(t.line, t.column), ErrorCode.ErrRecognized⟩, s'))
      ∧ analyseProgram c (fuel + 1) s
        = some (Except.ok (some ⟨(t.line, t.column), ErrorCode.ErrRecognized⟩, s'))
      ∧ s'._tokens = s._tokens ∧ s'._offset = s._offset
      ∧ (nextToken s').1 = some t
      ∧ s'._functions = s._functions ∧ s'._symbols = s._symbols)
    ∧ (∀ (s0 : Analyser) (l x col ty semi : Token),
        s0._tokens.drop s0._offset = l :: x :: col :: ty :: semi :: t :: rest →
        l.type = TokenType.LET → x.type = TokenType.IDENTIFIER →
        isLocalVariableDeclared s0 x.value = false →
        col.type = TokenType.COLON → semi.type = TokenType.SEMICOLON →
        ∃ s', analyseProgram c (fuel + 2) s0
            = some (Except.ok (some ⟨(t.line, t.column), ErrorCode.ErrRecognized⟩, s'))
          ∧ s'._offset = s0._offset + 5 ∧ (nextToken s').1 = some t
          ∧ s'._functions = s0._functions) := by
  have g0 := getElem?_of_drop hs 0
  simp only [List.getElem?_cons_zero, Nat.add_zero] at g0
  constructor
  · simp [analyseProgram, analyseProgramLoop, orReturn, nextToken, unreadToken, g0,
      Token.GetType, hfn, hlet, hconst, mkErr]
  · intro s0 l x col ty semi hs0 hl hx hnd hcol hsemi
    have k0 := getElem?_of_drop hs0 0
    have k1 := getElem?_of_drop hs0 1
    have k2 := getElem?_of_drop hs0 2
    have k3 := getElem?_of_drop hs0 3
    have k4 := getElem?_of_drop hs0 4
    have k5 := getElem?_of_drop hs0 5
    simp only [List.getElem?_cons_zero, List.getElem?_cons_succ, Nat.add_zero]
      at k0 k1 k2 k3 k4 k5
    simp only [isLocalVariableDeclared] at hnd
    simp [analyseProgram, analyseProgramLoop, orReturn, analyseDeclVariableStatement,
      declVariableTail, declareVariable, nextToken, unreadToken, k0, k1, k2, k3, k4, k5,
      Token.GetType, Token.GetValueString, hl, hx, hcol, hsemi, hfn, hlet, hconst, mkErr,
      isLocalVariableDeclared, hnd, Nat.add_assoc]

/-- C6, at a concrete input: a stream starting with `;`. -/
theorem C6_top_level_rejects_other_witness :
    ∃ s', analyseProgramLoop standIns startItem (0 + 1)
        (initAnalyser [tok TokenType.SEMICOLON ";" 0])
        = some (Except.ok (some ⟨(1, 0), ErrorCode.ErrRecognized⟩, s'))
      ∧ analyseProgram standIns (0 + 1) (initAnalyser [tok TokenType.SEMICOLON ";" 0])
        = some (Except.ok (some ⟨(1, 0), ErrorCode.ErrRecognized⟩, s'))
      ∧ s'._tokens = [tok TokenType.SEMICOLON ";" 0] ∧ s'._offset = 0
      ∧ (nextToken s').1 = some (tok TokenType.SEMICOLON ";" 0)
      ∧ s'._functions = [] ∧ s'._symbols = { current := [], outer := [] } :=
  (C6_top_level_rejects_other standIns 0 (initAnalyser [tok TokenType.SEMICOLON ";" 0])
    (tok TokenType.SEMICOLON ";" 0) [] rfl (by decide) (by decide) (by decide)).1

/-- Every state returned by the program loop is related to the start state by any
relation that holds across cursor calls, the assignment and function analysers and
`declareVariable`. -/
theorem analyseProgramLoop_steps {R : Analyser → Analyser → Prop} (hR : CursorClosed R)
    (c : Collab) (hA : ∀ a, R a (c.analyseAssignExpression a).2)
    (hF : ∀ a, R a (c.analyseFunction a).2)
    (hD : ∀ a x v, R a (declareVariable a x v)) (st : FunctionItem) (fuel : Nat) :
    ∀ s, RetRel R s (analyseProgramLoop c st fuel s) := by
  induction fuel with
  | zero => intro s; simp [analyseProgramLoop, RetRel]
  | succ n ih =>
    intro s
    rcases nextToken_cases hR s with ⟨s1, h1, r1⟩ | ⟨t1, s1, h1, r1, -⟩
    · simpa [analyseProgramLoop, h1, RetRel] using r1
    have ru := hR.trans _ _ _ r1 (hR.unread s1)
    have tail : ∀ a, R s a → RetRel R s (analyseProgramLoop c st n a) := by
      intro a ra
      have := ih a
      revert this
      cases analyseProgramLoop c st n a with
      | none => exact fun _ => trivial
      | some r =>
        cases r with
        | error _ => exact fun _ => trivial
        | ok p => exact fun h => hR.trans _ _ _ ra h
    simp only [analyseProgramLoop, h1]
    split
    · exact RetRel_orReturn hR ru (hF _) tail
    split
    · exact RetRel_orReturn hR ru (analyseDeclVariableStatement_rel hR c hA hD st _) tail
    split
    · exact RetRel_orReturn hR ru (analyseDeclConstStatement_rel hR c hA hD st _) tail
    · exact ru

theorem sameStart_closed :
    CursorClosed (fun a b => startDeclarations b = startDeclarations a) where
  refl := fun _ => rfl
  trans := fun _ _ _ h1 h2 => h2.trans h1
  next := fun s => by unfold nextToken; split <;> rfl
  unread := fun _ => rfl

theorem sameStart_declareVariable (a : Analyser) (x : Token) (v : VariableItem) :
    startDeclarations (declareVariable a x v) = startDeclarations a := by
  unfold declareVariable
  split <;> rfl

/-- C7 as stated fails: on `let x : int ;` the program analysis succeeds and `x` is
declared in the symbol table, but the `_start` record entered in the function table
holds no declaration; the function table is the same as after the empty stream. -/
theorem C7_start_record_counterexample :
    ∃ s', analyseProgram standIns 2 (initAnalyser (letXInt 0)) = some (Except.ok (none, s'))
      ∧ s'._symbols.current = [("x", { is_const := false, type := TokenType.INT })]
      ∧ s'._functions = [(startToken, startItem)]
      ∧ startItem.bodyScope = []
      ∧ ∃ s0, analyseProgram standIns 1 (initAnalyser []) = some (Except.ok (none, s0))
          ∧ s0._functions = s'._functions :=
  ⟨_, rfl, by decide, by decide, by decide, _, rfl, by decide⟩

/-- C7, amended. Provided the assignment and function analysers declare no function
named `_start`: whenever `analyseProgram` returns success it has declared exactly one
function named `_start`, as the last entry of the function table, and the record is
always the default record named `_start`, whatever was analysed; on the stream that has
ended it succeeds; on an error return no `_start` is declared. -/
theorem C7_start_record (c : Collab) (fuel : Nat) (s : Analyser)
    (hA : ∀ a, startDeclarations (c.analyseAssignExpression a).2 = startDeclarations a)
    (hF : ∀ a, startDeclarations (c.analyseFunction a).2 = startDeclarations a) :
    (∀ s', analyseProgram c fuel s = some (Except.ok (none, s')) →
        startDeclarations s' = startDeclarations s ++ [(startToken, startItem)]
        ∧ s'._functions.getLast? = some (startToken, startItem))
    ∧ startItem = { name := "_start", paramTypes := [], returnType := none, bodyScope := [] }
    ∧ (s._tokens.drop s._offset = [] →
        ∃ s', analyseProgram c (fuel + 1) s = some (Except.ok (none, s'))
          ∧ s'._functions = s._functions ++ [(startToken, startItem)])
    ∧ (∀ e s', analyseProgram c fuel s = some (Except.ok (some e, s')) →
        startDeclarations s' = startDeclarations s) := by
  have hl := analyseProgramLoop_steps sameStart_closed c hA hF sameStart_declareVariable
    startItem fuel s
  refine ⟨?_, rfl, ?_, ?_⟩
  · intro s' h
    unfold analyseProgram at h
    match hr : analyseProgramLoop c startItem fuel s, h with
    | some (Except.ok (none, s1)), h =>
      rw [hr] at hl
      simp only [orReturn, Option.some.injEq, Except.ok.injEq, Prod.mk.injEq, true_and] at h
      subst h
      constructor
      · have : startDeclarations s1 = startDeclarations s := hl
        simp [startDeclarations, declareFunction, startToken] at this ⊢
        rw [this]
      · simp [declareFunction]
    | some (Except.ok (some e, s1)), h => simp [orReturn] at h
    | some (Except.error x), h => simp [orReturn] at h
    | none, h => simp [orReturn] at h
  · intro hs
    have g0 := getElem?_of_drop hs 0
    simp only [List.getElem?_nil, Nat.add_zero] at g0
    simp [analyseProgram, analyseProgramLoop, orReturn, nextToken, g0, declareFunction]
  · intro e s' h
    unfold analyseProgram at h
    match hr : analyseProgramLoop c startItem fuel s, h with
    | some (Except.ok (none, s1)), h => simp [orReturn] at h
    | some (Except.ok (some e1, s1)), h =>
      rw [hr] at hl
      simp only [orReturn, Option.some.injEq, Except.ok.injEq, Prod.mk.injEq] at h
      obtain ⟨-, rfl⟩ := h
      exact hl
    | some (Except.error x), h => simp [orReturn] at h
    | none, h => simp [orReturn] at h

theorem standIns_assign_sameStart (a : Analyser) :
    startDeclarations (standIns.analyseAssignExpression a).2 = startDeclarations a :=
  assignOneToken_steps sameStart_closed a

theorem standIns_function_sameStart (a : Analyser) :
    startDeclarations (standIns.analyseFunction a).2 = startDeclarations a := rfl

/-- C7, amended, at a concrete input: the empty stream. -/
theorem C7_start_record_witness :
    ∃ s', analyseProgram standIns (0 + 1) (initAnalyser []) = some (Except.ok (none, s'))
      ∧ s'._functions = [] ++ [(startToken, startItem)] :=
  (C7_start_record standIns 0 (initAnalyser []) standIns_assign_sameStart
    standIns_function_sameStart).2.2.1 rfl

/-! ## The `if` statement -/

theorem trueRel_closed : CursorClosed (fun _ _ => True) where
  refl := fun _ => trivial
  trans := fun _ _ _ _ _ => trivial
  next := fun _ => trivial
  unread := fun _ => trivial

/-- A block loop that returns success has just read a closing brace. -/
theorem analyseBlockStatementLoop_ends_at_brace (c : Collab) (func : FunctionItem) :
    ∀ (fuel : Nat) (s s' : Analyser),
      analyseBlockStatementLoop c func fuel s = some (Except.ok (none, s')) →
      ∃ rb, JustRead s' rb ∧ rb.type = TokenType.RIGHT_BRACE := by
  intro fuel
  induction fuel with
  | zero => intro s s' h; simp [analyseBlockStatementLoop] at h
  | succ n ih =>
    intro s s' h
    simp only [analyseBlockStatementLoop] at h
    match hr : analyseStatement c func n s, h with
    | none, h => simp [orReturn] at h
    | some (Except.error _), h => simp [orReturn] at h
    | some (Except.ok (some _, _)), h => simp [orReturn] at h
    | some (Except.ok (none, s1)), h =>
      simp only [orReturn] at h
      rcases nextToken_cases trueRel_closed s1 with ⟨s2, h2, -⟩ | ⟨t2, s2, h2, -, j2⟩
      · simp only [h2] at h
        exact ih _ _ h
      · simp only [h2] at h
        by_cases c2 : t2.GetType = TokenType.RIGHT_BRACE
        · simp only [c2, if_true, Option.some.injEq, Except.ok.injEq, Prod.mk.injEq,
            true_and] at h
          subst h
          exact ⟨t2, j2, c2⟩
        · simp only [c2, if_false] at h
          exact ih _ _ h

/-- A block statement that returns success has just read a closing brace. -/
theorem analyseBlockStatement_ends_at_brace (c : Collab) (func : FunctionItem)
    (fuel : Nat) (s s' : Analyser)
    (h : analyseBlockStatement c func fuel s = some (Except.ok (none, s'))) :
    ∃ rb, JustRead s' rb ∧ rb.type = TokenType.RIGHT_BRACE := by
  cases fuel with
  | zero => simp [analyseBlockStatement] at h
  | succ n =>
    simp only [analyseBlockStatement] at h
    rcases nextToken_cases trueRel_closed s with ⟨s1, h1, -⟩ | ⟨t1, s1, h1, -, -⟩
    · simp [h1, mkErr] at h
    · simp only [h1] at h
      by_cases c1 : t1.GetType = TokenType.LEFT_BRACE
      · simp only [c1, ne_eq, not_true, if_false] at h
        exact analyseBlockStatementLoop_ends_at_brace c func n s1 s' h
      · simp [c1, mkErr] at h

/-- C8. Pushback correctness of `if`: when `analyseIfStatement` succeeds, it has read
`if`, the expression analyser has succeeded, and `analyseBlockStatement` has succeeded
ending right after a closing brace; if the token that follows this brace exists and is
not `ELSE`, the cursor after the call is where the block left it, and the next read
returns that token. -/
theorem C8_if_pushback (c : Collab) (func : FunctionItem) (fuel : Nat) (s s' : Analyser)
    (h : analyseIfStatement c func fuel s = some (Except.ok (none, s'))) :
    ∃ n ift s1 s2 s3 rb, fuel = n + 1
      ∧ nextToken s = (some ift, s1) ∧ ift.type = TokenType.IF
      ∧ c.analyseExpression s1 = (none, s2)
      ∧ analyseBlockStatement c func n s2 = some (Except.ok (none, s3))
      ∧ JustRead s3 rb ∧ rb.type = TokenType.RIGHT_BRACE
      ∧ ∀ t, s3._tokens[s3._offset]? = some t → t.type ≠ TokenType.ELSE →
          s'._tokens = s3._tokens ∧ s'._offset = s3._offset
          ∧ (nextToken s').1 = some t := by
  cases fuel with
  | zero => simp [analyseIfStatement] at h
  | succ n =>
    simp only [analyseIfStatement] at h
    rcases nextToken_cases trueRel_closed s with ⟨s1, h1, -⟩ | ⟨ift, s1, h1, -, -⟩
    · simp [h1, mkErr] at h
    simp only [h1] at h
    by_cases c1 : ift.GetType = TokenType.IF
    swap
    · simp [c1, mkErr] at h
    simp only [c1, ne_eq, not_true, if_false] at h
    rcases h2 : c.analyseExpression s1 with ⟨_ | e, s2⟩
    swap
    · simp [h2, orReturn] at h
    simp only [h2, orReturn] at h
    match h3 : analyseBlockStatement c func n s2, h with
    | none, h => simp at h
    | some (Except.error _), h => simp at h
    | some (Except.ok (some _, _)), h => simp at h
    | some (Except.ok (none, s3)), h =>
      obtain ⟨rb, jrb, hrb⟩ := analyseBlockStatement_ends_at_brace c func n s2 s3 h3
      refine ⟨n, ift, s1, s2, s3, rb, rfl, h1, c1, h2, h3, jrb, hrb, ?_⟩
      intro t ht hne
      simp only [nextToken, ht, Token.GetType, hne, if_false, Option.some.injEq,
        Except.ok.injEq, Prod.mk.injEq, true_and] at h
      subst h
      simp [nextToken, unreadToken, ht]

/-- C8, at a concrete input: after `if x { ; }` followed by `;`, the next read
returns that `;`. -/
theorem C8_if_pushback_witness :
    ∃ n ift s1 s2 s3 rb, 4 = n + 1
      ∧ nextToken (initAnalyser ifStream) = (some ift, s1) ∧ ift.type = TokenType.IF
      ∧ standIns.analyseExpression s1 = (none, s2)
      ∧ analyseBlockStatement standIns startItem n s2 = some (Except.ok (none, s3))
      ∧ JustRead s3 rb ∧ rb.type = TokenType.RIGHT_BRACE
      ∧ ∀ t, s3._tokens[s3._offset]? = some t → t.type ≠ TokenType.ELSE →
          afterIfStream._tokens = s3._tokens ∧ afterIfStream._offset = s3._offset
          ∧ (nextToken afterIfStream).1 = some t :=
  C8_if_pushback standIns startItem 4 (initAnalyser ifStream) afterIfStream rfl

/-! ## Statement dispatch and `return` -/

theorem orReturn_id (r : Option Ret) :
    orReturn r (fun s2 => some (Except.ok (none, s2))) = r := by
  match r with
  | none => rfl
  | some (Except.error _) => rfl
  | some (Except.ok (some _, _)) => rfl
  | some (Except.ok (none, _)) => rfl

/-- C11. `analyseStatement` is exactly its one selected alternative: when the next
token is `t`, its result (returned optional and final state) is that of the procedure
selected by the kind of `t`, run from the state in which `t` has been pushed back (same
token list, same cursor offset, same symbol and function tables as at the start); for
`SEMICOLON` it is success having read only `t`. An expression statement returns the
error of its expression unchanged, and `ErrNeedSemicolon` when the expression succeeds
and the next token is absent or is not `;`. -/
theorem C11_statement_is_its_alternative (c : Collab) (func : FunctionItem) (fuel : Nat)
    (s s1 : Analyser) (t : Token) (h : nextToken s = (some t, s1)) :
    analyseStatement c func (fuel + 1) s
      = (match t.type with
        | TokenType.IF => analyseIfStatement c func fuel (unreadToken s1)
        | TokenType.WHILE => analyseWhileStatement c func fuel (unreadToken s1)
        | TokenType.RETURN => some (analyseReturnStatement c func (unreadToken s1))
        | TokenType.LEFT_BRACE => analyseBlockStatement c func fuel (unreadToken s1)
        | TokenType.LET => some (analyseDeclVariableStatement c func (unreadToken s1))
        | TokenType.CONST => some (analyseDeclConstStatement c func (unreadToken s1))
        | TokenType.SEMICOLON => some (Except.ok (none, s1))
        | _ => some (analyseExprStatement c func (unreadToken s1)))
    ∧ ((unreadToken s1)._tokens = s._tokens ∧ (unreadToken s1)._offset = s._offset
        ∧ (unreadToken s1)._symbols = s._symbols
        ∧ (unreadToken s1)._functions = s._functions
        ∧ (nextToken (unreadToken s1)).1 = some t)
    ∧ (s1._tokens = s._tokens ∧ s1._offset = s._offset + 1 ∧ s1._symbols = s._symbols)
    ∧ (∀ a e a1, c.analyseExpression a = (some e, a1) →
        analyseExprStatement c func a = Except.ok (some e, a1))
    ∧ (∀ a a1, c.analyseExpression a = (none, a1) →
        (∀ t2, a1._tokens[a1._offset]? = some t2 → t2.type ≠ TokenType.SEMICOLON) →
        analyseExprStatement c func a
          = Except.ok (some ⟨(nextToken a1).2._current_pos, ErrorCode.ErrNeedSemicolon⟩,
              (nextToken a1).2)) := by
  have hs : s._tokens[s._offset]? = some t ∧ s1 = { s with
      _offset := s._offset + 1, _current_pos := (t.line, t.column),
      _calls := s._calls ++ [CursorCall.nextSome] } := by
    unfold nextToken at h
    cases hg : s._tokens[s._offset]? with
    | none => simp [hg] at h
    | some t' =>
      simp only [hg, Prod.mk.injEq, Option.some.injEq] at h
      obtain ⟨rfl, rfl⟩ := h
      exact ⟨rfl, rfl⟩
  obtain ⟨hg, rfl⟩ := hs
  refine ⟨?_, ?_, ?_, ?_, ?_⟩
  · simp only [analyseStatement, h, Token.GetType]
    split <;> simp only [orReturn_id]
  · simp [unreadToken, nextToken, hg]
  · simp
  · intro a e a1 ha
    simp [analyseExprStatement, ha]
  · intro a a1 ha hno
    simp only [analyseExprStatement, ha, nextToken]
    cases hg2 : a1._tokens[a1._offset]? with
    | none => rfl
    | some t2 =>
      have := hno t2 hg2
      simp only [Token.GetType, ne_eq, this, not_false_eq_true, if_true, mkErr]

/-- C11, at a concrete input: on `let x : int ;` the statement procedure is the
variable declaration. -/
theorem C11_statement_is_its_alternative_witness :
    analyseStatement standIns startItem (0 + 1) (initAnalyser (letXInt 0))
      = some (analyseDeclVariableStatement standIns startItem
          (unreadToken (nextToken (initAnalyser (letXInt 0))).2)) :=
  (C11_statement_is_its_alternative standIns startItem 0 (initAnalyser (letXInt 0))
    (nextToken (initAnalyser (letXInt 0))).2 (tok TokenType.LET "let" 0) rfl).1

/-- C12. Return statement: on a stream starting `return ;`, `analyseReturnStatement`
succeeds with a final state that is the same for every expression analyser (none is
called): exactly two tokens read. On a stream starting `return` followed by a token
other than `;`, the expression analyser is run from the state in which the cursor is
at that token, and the result is the error of the expression if it fails, success if
the token after the expression is `;`, and `ErrNeedSemicolon` otherwise. -/
theorem C12_return_statement (c : Collab) (func : FunctionItem) (s : Analyser)
    (t1 t2 : Token) (rest : List Token)
    (hs : s._tokens.drop s._offset = t1 :: t2 :: rest)
    (h1 : t1.type = TokenType.RETURN) :
    (t2.type = TokenType.SEMICOLON →
      analyseReturnStatement c func s
        = Except.ok (none, { s with
            _offset := s._offset + 2
            _current_pos := (t2.line, t2.column)
            _calls := s._calls ++ [CursorCall.nextSome, CursorCall.nextSome] }))
    ∧ (t2.type ≠ TokenType.SEMICOLON →
      ∃ a, a._tokens = s._tokens ∧ a._offset = s._offset + 1
        ∧ (nextToken a).1 = some t2
        ∧ a._symbols = s._symbols ∧ a._functions = s._functions
        ∧ analyseReturnStatement c func s
          = (match c.analyseExpression a with
            | (some e, a1) => Except.ok (some e, a1)
            | (none, a1) =>
              match nextToken a1 with
              | (some t, a2) =>
                if t.type = TokenType.SEMICOLON then Except.ok (none, a2)
                else Except.ok (some ⟨a2._current_pos, ErrorCode.ErrNeedSemicolon⟩, a2)
              | (none, a2) =>
                Except.ok (some ⟨a2._current_pos, ErrorCode.ErrNeedSemicolon⟩, a2))) := by
  have g0 := getElem?_of_drop hs 0
  have g1 := getElem?_of_drop hs 1
  simp only [List.getElem?_cons_zero, List.getElem?_cons_succ, Nat.add_zero] at g0 g1
  constructor
  · intro h2
    simp [analyseReturnStatement, nextToken, g0, g1, Token.GetType, h1, h2, Nat.add_assoc]
  · intro h2
    refine ⟨unreadToken (nextToken (nextToken s).2).2, ?_, ?_, ?_, ?_, ?_, ?_⟩
    · simp [nextToken, unreadToken, g0, g1]
    · simp [nextToken, unreadToken, g0, g1]
    · simp [nextToken, unreadToken, g0, g1]
    · simp [nextToken, unreadToken, g0, g1]
    · simp [nextToken, unreadToken, g0, g1]
    · simp only [analyseReturnStatement, nextToken, g0, g1, Token.GetType, h1, h2, mkErr,
        ne_eq, not_true, if_false, not_false_eq_true, if_true]
      rcases c.analyseExpression _ with ⟨_ | e, a1⟩
      · simp only
        cases a1._tokens[a1._offset]? <;> rfl
      · rfl

/-- C12, at a concrete input: `return ;`. -/
theorem C12_return_statement_witness :
    analyseReturnStatement standIns startItem (initAnalyser returnSemi)
      = Except.ok (none, { initAnalyser returnSemi with
          _offset := 0 + 2
          _current_pos := (1, 1)
          _calls := [] ++ [CursorCall.nextSome, CursorCall.nextSome] }) :=
  (C12_return_statement standIns startItem (initAnalyser returnSemi)
    (tok TokenType.RETURN "return" 0) (tok TokenType.SEMICOLON ";" 1) [] rfl
    (by decide)).1 (by decide)

/-! ## Blocks: the empty block, the unterminated block -/

theorem sameTokens_closed : CursorClosed (fun a b => b._tokens = a._tokens) where
  refl := fun _ => rfl
  trans := fun _ _ _ h1 h2 => h2.trans h1
  next := fun s => by unfold nextToken; split <;> rfl
  unread := fun _ => rfl

theorem standIns_expression_tokens (a : Analyser) :
    (standIns.analyseExpression a).2._tokens = a._tokens :=
  oneTokenExpression_steps sameTokens_closed a

/-- C13, the code on the empty block. For every expression analyser that leaves the
token list alone, `analyseBlockStatement` on the two tokens `LEFT_BRACE RIGHT_BRACE`
returns an error, not success: the closing brace is handed to the expression
statement, and the error is that of the expression analyser run at the closing brace,
or `ErrNeedSemicolon`. -/
theorem C13_empty_block_rejected (c : Collab) (func : FunctionItem) (fuel : Nat)
    (s : Analyser) (lb rb : Token)
    (hs : s._tokens = [lb, rb]) (ho : s._offset = 0)
    (hlb : lb.type = TokenType.LEFT_BRACE) (hrb : rb.type = TokenType.RIGHT_BRACE)
    (hE : ∀ a, (c.analyseExpression a).2._tokens = a._tokens) :
    ∃ e s' a, analyseBlockStatement c func (fuel + 3) s = some (Except.ok (some e, s'))
      ∧ (nextToken a).1 = some rb
      ∧ ((c.analyseExpression a).1 = some e ∨ e.code = ErrorCode.ErrNeedSemicolon) := by
  have g0 : s._tokens[s._offset]? = some lb := by simp [hs, ho]
  have g1 : s._tokens[s._offset + 1]? = some rb := by simp [hs, ho]
  have hrun : analyseBlockStatement c func (fuel + 3) s
      = orReturn (some (analyseExprStatement c func
          (unreadToken (nextToken (nextToken s).2).2)))
        (fun s1 =>
          match nextToken s1 with
          | (some t2, s2) =>
            if t2.GetType = TokenType.RIGHT_BRACE then some (Except.ok (none, s2))
            else analyseBlockStatementLoop c func (fuel + 1) (unreadToken s2)
          | (none, s2) => analyseBlockStatementLoop c func (fuel + 1) (unreadToken s2)) := by
    simp only [analyseBlockStatement, analyseBlockStatementLoop, analyseStatement, nextToken,
      g0, g1, Token.GetType, hlb, hrb, ne_eq, not_true, if_false, orReturn_id]
  have hnext : (nextToken (unreadToken (nextToken (nextToken s).2).2)).1 = some rb := by
    simp [nextToken, unreadToken, g0, g1]
  have htok : (c.analyseExpression (unreadToken (nextToken (nextToken s).2).2)).2._tokens
      = [lb, rb] := by
    rw [hE]; simp only [nextToken, unreadToken, g0, g1]; exact hs
  generalize unreadToken (nextToken (nextToken s).2).2 = a at hrun hnext htok
  rcases hx : c.analyseExpression a with ⟨_ | e, a1⟩
  · rw [hx] at htok
    have hsemi : ∀ t2, a1._tokens[a1._offset]? = some t2 →
        t2.type ≠ TokenType.SEMICOLON := by
      intro t2 h2
      have hm : t2 ∈ a1._tokens := List.getElem?_mem h2
      rw [htok] at hm
      simp only [List.mem_cons, List.mem_singleton, List.not_mem_nil, or_false] at hm
      rcases hm with rfl | rfl
      · simp [hlb]
      · simp [hrb]
    refine ⟨⟨(nextToken a1).2._current_pos, ErrorCode.ErrNeedSemicolon⟩, (nextToken a1).2,
      a, ?_, hnext, Or.inr rfl⟩
    rw [hrun]
    simp only [analyseExprStatement, hx, nextToken]
    cases h2 : a1._tokens[a1._offset]? with
    | none => rfl
    | some t2 =>
      have := hsemi t2 h2
      simp only [Token.GetType, ne_eq, this, not_false_eq_true, if_true, mkErr, orReturn]
  · refine ⟨e, a1, a, ?_, hnext, Or.inl (by rw [hx])⟩
    rw [hrun]
    simp only [analyseExprStatement, hx, orReturn]

/-- C13, the code on the empty block, at a concrete input. -/
theorem C13_empty_block_rejected_witness :
    ∃ e s' a, analyseBlockStatement standIns startItem (0 + 3) (initAnalyser emptyBlock)
        = some (Except.ok (some e, s'))
      ∧ (nextToken a).1 = some (tok TokenType.RIGHT_BRACE "\x7d" 1)
      ∧ ((standIns.analyseExpression a).1 = some e
          ∨ e.code = ErrorCode.ErrNeedSemicolon) :=
  C13_empty_block_rejected standIns startItem 0 (initAnalyser emptyBlock)
    (tok TokenType.LEFT_BRACE "\x7b" 0) (tok TokenType.RIGHT_BRACE "\x7d" 1) rfl rfl
    (by decide) (by decide) standIns_expression_tokens

/-! ## `else` after `if` and after `while` -/

theorem nextToken_some_eq {s s1 : Analyser} {t : Token} (h : nextToken s = (some t, s1)) :
    s._tokens[s._offset]? = some t ∧ s1 = { s with
      _offset := s._offset + 1, _current_pos := (t.line, t.column),
      _calls := s._calls ++ [CursorCall.nextSome] } := by
  unfold nextToken at h
  cases hg : s._tokens[s._offset]? with
  | none => simp [hg] at h
  | some t' =>
    simp only [hg, Prod.mk.injEq, Option.some.injEq] at h
    obtain ⟨rfl, rfl⟩ := h
    exact ⟨rfl, rfl⟩

/-- C14, the code on `else`. When `ELSE` follows the if-block, `analyseIfStatement`
reads the `ELSE` and returns success at once: the state it leaves is the one right
after reading `ELSE` (one token past the block), whatever follows, so nothing after
`ELSE` is analysed and an `else` at the end of the stream is accepted. -/
theorem C14_else_branch_not_analysed (c : Collab) (func : FunctionItem) (n : Nat)
    (s s1 s2 s3 s4 : Analyser) (ift els : Token)
    (h1 : nextToken s = (some ift, s1)) (hif : ift.type = TokenType.IF)
    (h2 : c.analyseExpression s1 = (none, s2))
    (h3 : analyseBlockStatement c func n s2 = some (Except.ok (none, s3)))
    (h4 : nextToken s3 = (some els, s4)) (helse : els.type = TokenType.ELSE) :
    analyseIfStatement c func (n + 1) s = some (Except.ok (none, s4))
    ∧ s4._tokens = s3._tokens ∧ s4._offset = s3._offset + 1
    ∧ s4._symbols = s3._symbols := by
  constructor
  · simp [analyseIfStatement, h1, Token.GetType, hif, h2, h3, h4, helse, orReturn]
  · obtain ⟨-, rfl⟩ := nextToken_some_eq h4
    simp

/-- C14, the code on `else`, at a concrete input: `if x { ; } else` with nothing after
`else` is accepted, the cursor at the end of the six tokens. -/
theorem C14_else_branch_not_analysed_witness :
    ∃ s4, analyseIfStatement standIns startItem (3 + 1) (initAnalyser ifElseEnd)
        = some (Except.ok (none, s4))
      ∧ s4._offset = 6 :=
  ⟨_, (C14_else_branch_not_analysed standIns startItem 3 (initAnalyser ifElseEnd) _ _ _ _
      (tok TokenType.IF "if" 0) (tok TokenType.ELSE "else" 5) rfl (by decide) rfl rfl rfl
      (by decide)).1, rfl⟩

/-! ## The block loop at the end of the stream -/

/-- One iteration of the block loop at a `;` that is the last token of the stream: the
statement reads the `;`, the read for the closing brace finds nothing, and the
pushback puts the cursor back on the `;`. -/
theorem blockLoop_iteration_at_last_semicolon (c : Collab) (func : FunctionItem)
    (s : Analyser) (semi : Token) (h : s._tokens[s._offset]? = some semi)
    (hsemi : semi.type = TokenType.SEMICOLON) (hlast : s._tokens.length = s._offset + 1)
    (fuel : Nat) :
    analyseBlockStatementLoop c func (fuel + 2) s
      = analyseBlockStatementLoop c func (fuel + 1)
          { s with
            _current_pos := (semi.line, semi.column)
            _calls := s._calls
              ++ [CursorCall.nextSome, CursorCall.nextNone, CursorCall.unread] } := by
  have hnone : s._tokens[s._offset + 1]? = none := by
    rw [List.getElem?_eq_none_iff]; omega
  simp [analyseBlockStatementLoop, analyseStatement, nextToken, unreadToken, h, hnone,
    Token.GetType, hsemi, orReturn]

/-- The block loop at a `;` that is the last token of the stream never returns. -/
theorem blockLoop_at_last_semicolon (c : Collab) (func : FunctionItem) (semi : Token)
    (hsemi : semi.type = TokenType.SEMICOLON) :
    ∀ (fuel : Nat) (s : Analyser), s._tokens[s._offset]? = some semi →
      s._tokens.length = s._offset + 1 →
      analyseBlockStatementLoop c func fuel s = none := by
  intro fuel
  induction fuel with
  | zero => intro s _ _; rfl
  | succ n ih =>
    intro s h hlast
    cases n with
    | zero => simp [analyseBlockStatementLoop, analyseStatement, orReturn]
    | succ m =>
      rw [blockLoop_iteration_at_last_semicolon c func s semi h hsemi hlast m]
      exact ih _ h hlast

/-- C15, the code on an unterminated block. On `LEFT_BRACE SEMICOLON` followed by the
end of the stream, `analyseBlockStatement` never returns, whatever the fuel; on
`LEFT_BRACE` followed by the end of the stream it returns `ErrNeedSemicolon` at the
brace. In neither case does it return `ErrRecognized`. -/
theorem C15_unterminated_block (c : Collab) (func : FunctionItem) (fuel : Nat)
    (s : Analyser) (lb semi : Token)
    (hs : s._tokens.drop s._offset = [lb, semi])
    (hlb : lb.type = TokenType.LEFT_BRACE) (hsemi : semi.type = TokenType.SEMICOLON) :
    analyseBlockStatement c func fuel s = none
    ∧ (∀ s0 : Analyser, s0._tokens.drop s0._offset = [lb] →
        ∃ s', analyseBlockStatement c func (fuel + 3) s0
          = some (Except.ok (some ⟨(lb.line, lb.column), ErrorCode.ErrNeedSemicolon⟩, s'))) := by
  constructor
  · have g0 := getElem?_of_drop hs 0
    have g1 := getElem?_of_drop hs 1
    simp only [List.getElem?_cons_zero, List.getElem?_cons_succ, Nat.add_zero] at g0 g1
    have hlen : s._tokens.length = s._offset + 2 := by
      have := congrArg List.length hs
      simp only [List.length_drop, List.length_cons, List.length_nil] at this
      omega
    cases fuel with
    | zero => rfl
    | succ n =>
      simp only [analyseBlockStatement, nextToken, g0, Token.GetType, hlb, ne_eq, not_true,
        if_false]
      exact blockLoop_at_last_semicolon c func semi hsemi n _ g1 hlen
  · intro s0 hs0
    have k0 := getElem?_of_drop hs0 0
    have k1 := getElem?_of_drop hs0 1
    simp only [List.getElem?_cons_zero, List.getElem?_cons_succ, List.getElem?_nil,
      Nat.add_zero] at k0 k1
    simp [analyseBlockStatement, analyseBlockStatementLoop, analyseStatement, nextToken, k0, k1,
      Token.GetType, hlb, orReturn, mkErr]

/-- C15, the code on an unterminated block, at a concrete input: `{ ;` with fuel 100. -/
theorem C15_unterminated_block_witness :
    analyseBlockStatement standIns startItem 100 (initAnalyser openBlockSemi) = none :=
  (C15_unterminated_block standIns startItem 100 (initAnalyser openBlockSemi)
    (tok TokenType.LEFT_BRACE "\x7b" 0) (tok TokenType.SEMICOLON ";" 1) rfl (by decide)
    (by decide)).1

/-- C20, the code at the end of the stream. At a `;` that is the last token of the
stream, an iteration of the block loop that does not return consumes no token net of
pushback: the statement moves the cursor one token on, the failed read and the
pushback move it one token back. So the loop never returns there, and neither does
`analyseStatement` nor `analyseBlockStatement` on `LEFT_BRACE SEMICOLON`. -/
theorem C20_block_loop_no_progress (c : Collab) (func : FunctionItem) (s : Analyser)
    (semi : Token) (h : s._tokens[s._offset]? = some semi)
    (hsemi : semi.type = TokenType.SEMICOLON) (hlast : s._tokens.length = s._offset + 1) :
    (∃ s1 s', (∀ fuel, analyseStatement c func (fuel + 1) s = some (Except.ok (none, s1)))
        ∧ s1._offset = s._offset + 1
        ∧ (∀ fuel, analyseBlockStatementLoop c func (fuel + 2) s
            = analyseBlockStatementLoop c func (fuel + 1) s')
        ∧ s'._tokens = s._tokens ∧ s'._offset = s._offset)
    ∧ (∀ fuel, analyseBlockStatementLoop c func fuel s = none)
    ∧ (∀ (fuel : Nat) (s0 : Analyser) (lb : Token), lb.type = TokenType.LEFT_BRACE →
        s0._tokens.drop s0._offset = [lb, semi] →
        analyseStatement c func fuel s0 = none
        ∧ analyseBlockStatement c func fuel s0 = none) := by
  refine ⟨⟨(nextToken s).2, _, ?_, ?_,
    blockLoop_iteration_at_last_semicolon c func s semi h hsemi hlast, rfl, rfl⟩, ?_, ?_⟩
  · intro fuel
    simp [analyseStatement, nextToken, h, Token.GetType, hsemi]
  · simp [nextToken, h]
  · intro fuel
    exact blockLoop_at_last_semicolon c func semi hsemi fuel s h hlast
  · intro fuel s0 lb hlb hs0
    have g0 := getElem?_of_drop hs0 0
    have g1 := getElem?_of_drop hs0 1
    simp only [List.getElem?_cons_zero, List.getElem?_cons_succ, Nat.add_zero] at g0 g1
    have hlen : s0._tokens.length = s0._offset + 2 := by
      have := congrArg List.length hs0
      simp only [List.length_drop, List.length_cons, List.length_nil] at this
      omega
    have hb : ∀ n (a : Analyser), a._tokens = s0._tokens → a._offset = s0._offset →
        analyseBlockStatement c func n a = none := by
      intro n a ha1 ha2
      cases n with
      | zero => rfl
      | succ m =>
        have ga : a._tokens[a._offset]? = some lb := by rw [ha1, ha2]; exact g0
        simp only [analyseBlockStatement, nextToken, ga, Token.GetType, hlb, ne_eq, not_true,
          if_false]
        exact blockLoop_at_last_semicolon c func semi hsemi m _
          (by simpa [ha1, ha2] using g1) (by simp [ha1, ha2, hlen])
    constructor
    · cases fuel with
      | zero => rfl
      | succ m =>
        simp only [analyseStatement, nextToken, g0, Token.GetType, hlb, orReturn_id]
        exact hb m _ rfl (by simp [unreadToken])
    · exact hb fuel s0 rfl rfl

/-- C20, the code at the end of the stream, at a concrete input: the block loop at the
`;` of `{ ;` with fuel 100. -/
theorem C20_block_loop_no_progress_witness :
    analyseBlockStatementLoop standIns startItem 100
      (nextToken (initAnalyser openBlockSemi)).2 = none :=
  (C20_block_loop_no_progress standIns startItem (nextToken (initAnalyser openBlockSemi)).2
    (tok TokenType.SEMICOLON ";" 1) rfl (by decide) rfl).2.1 100

/-! ## The token after the colon -/

/-- C16, the code on the type token. The token after the colon is not checked: on
`let x : T ;` with `x` not declared in the current scope and `T` a token that is neither
`INT` nor `DOUBLE`, `analyseDeclVariableStatement` succeeds and records the kind of `T`
as the type of `x`; on `const x : T = e ;` `analyseDeclConstStatement` does the same
once the assignment analyser has succeeded and `;` follows. -/
theorem C16_type_token_not_checked (c : Collab) (func : FunctionItem) (s : Analyser)
    (t1 t2 t3 t4 t5 : Token) (rest : List Token)
    (hs : s._tokens.drop s._offset = t1 :: t2 :: t3 :: t4 :: t5 :: rest)
    (h2 : t2.type = TokenType.IDENTIFIER)
    (hx : isLocalVariableDeclared s t2.value = false)
    (h3 : t3.type = TokenType.COLON)
    (h4 : t4.type ≠ TokenType.INT ∧ t4.type ≠ TokenType.DOUBLE) :
    (t1.type = TokenType.LET → t5.type = TokenType.SEMICOLON →
      ∃ s', analyseDeclVariableStatement c func s = Except.ok (none, s')
        ∧ lookup s' t2.value = some { is_const := false, type := t4.type }
        ∧ t4.type ≠ TokenType.INT ∧ t4.type ≠ TokenType.DOUBLE)
    ∧ (t1.type = TokenType.CONST → t5.type = TokenType.ASSIGN →
      ∀ (s6 s7 : Analyser) (t7 : Token),
        c.analyseAssignExpression
            { s with
              _offset := s._offset + 4
              _current_pos := (t5.line, t5.column)
              _calls := s._calls ++ [CursorCall.nextSome, CursorCall.nextSome,
                CursorCall.nextSome, CursorCall.nextSome, CursorCall.nextSome,
                CursorCall.unread] } = (none, s6) →
        nextToken s6 = (some t7, s7) → t7.type = TokenType.SEMICOLON →
        analyseDeclConstStatement c func s
          = Except.ok (none, declareVariable s7 t2 { is_const := true, type := t4.type })) := by
  have g0 := getElem?_of_drop hs 0
  have g1 := getElem?_of_drop hs 1
  have g2 := getElem?_of_drop hs 2
  have g3 := getElem?_of_drop hs 3
  have g4 := getElem?_of_drop hs 4
  simp only [List.getElem?_cons_zero, List.getElem?_cons_succ, Nat.add_zero] at g0 g1 g2 g3 g4
  simp only [isLocalVariableDeclared] at hx
  constructor
  · intro h1 h5
    refine ⟨declareVariable
      (nextToken (nextToken (nextToken (nextToken (nextToken s).2).2).2).2).2 t2
      { is_const := false, type := t4.type }, ?_, ?_, h4⟩
    · simp [analyseDeclVariableStatement, declVariableTail, nextToken, g0, g1, g2, g3, g4,
        Token.GetType, Token.GetValueString, h1, h2, h3, h5, isLocalVariableDeclared, hx,
        Nat.add_assoc]
    · simp [declareVariable, isLocalVariableDeclared, hx, lookup, Token.GetValueString,
        nextToken, g0, g1, g2, g3, g4, Nat.add_assoc]
  · intro h1 h5 s6 s7 t7 h6 h7 hsemi
    simp [analyseDeclConstStatement, nextToken, unreadToken, g0, g1, g2, g3, g4,
      Token.GetType, Token.GetValueString, h1, h2, h3, h5, isLocalVariableDeclared, hx,
      Nat.add_assoc, h6]
    simp only [nextToken] at h7
    simp [h7, hsemi]

/-- C16, the code on the type token, at a concrete input: `let x : while ;` is
accepted and `x` gets the type `WHILE`. -/
theorem C16_type_token_not_checked_witness :
    ∃ s', analyseDeclVariableStatement standIns startItem (initAnalyser letXWhile)
        = Except.ok (none, s')
      ∧ lookup s' "x" = some { is_const := false, type := TokenType.WHILE }
      ∧ TokenType.WHILE ≠ TokenType.INT ∧ TokenType.WHILE ≠ TokenType.DOUBLE :=
  (C16_type_token_not_checked standIns startItem (initAnalyser letXWhile)
    (tok TokenType.LET "let" 0) (tok TokenType.IDENTIFIER "x" 1)
    (tok TokenType.COLON ":" 2) (tok TokenType.WHILE "while" 3)
    (tok TokenType.SEMICOLON ";" 4) [] rfl (by decide) (by decide) (by decide)
    (by decide)).1 (by decide) (by decide)

/-- C17, the code at the end of the stream after the colon. On `let x :` and on
`const x :` followed by the end of the stream (`x` not declared in the current scope)
the declaration procedure takes the value of the absent token: it throws
`bad_optional_access` and returns no `CompilationError`; `analyseStatement` and
`analyseProgram` end the same way. -/
theorem C17_value_of_absent_token (c : Collab) (func : FunctionItem) (s : Analyser)
    (t1 t2 t3 : Token)
    (hs : s._tokens.drop s._offset = [t1, t2, t3])
    (h2 : t2.type = TokenType.IDENTIFIER)
    (hx : isLocalVariableDeclared s t2.value = false)
    (h3 : t3.type = TokenType.COLON) :
    (t1.type = TokenType.LET →
      analyseDeclVariableStatement c func s = Except.error Exn.bad_optional_access
      ∧ ∀ fuel, analyseStatement c func (fuel + 1) s
            = some (Except.error Exn.bad_optional_access)
          ∧ analyseProgram c (fuel + 1) s = some (Except.error Exn.bad_optional_access))
    ∧ (t1.type = TokenType.CONST →
      analyseDeclConstStatement c func s = Except.error Exn.bad_optional_access
      ∧ ∀ fuel, analyseStatement c func (fuel + 1) s
            = some (Except.error Exn.bad_optional_access)
          ∧ analyseProgram c (fuel + 1) s = some (Except.error Exn.bad_optional_access)) := by
  have g0 := getElem?_of_drop hs 0
  have g1 := getElem?_of_drop hs 1
  have g2 := getElem?_of_drop hs 2
  have g3 := getElem?_of_drop hs 3
  simp only [List.getElem?_cons_zero, List.getElem?_cons_succ, List.getElem?_nil,
    Nat.add_zero] at g0 g1 g2 g3
  simp only [isLocalVariableDeclared] at hx
  constructor
  · intro h1
    refine ⟨?_, fun fuel => ⟨?_, ?_⟩⟩ <;>
    simp [analyseProgram, analyseProgramLoop, analyseStatement, orReturn,
      analyseDeclVariableStatement, nextToken, unreadToken, g0, g1, g2, g3, Token.GetType,
      Token.GetValueString, h1, h2, h3, isLocalVariableDeclared, hx, Nat.add_assoc]
  · intro h1
    refine ⟨?_, fun fuel => ⟨?_, ?_⟩⟩ <;>
    simp [analyseProgram, analyseProgramLoop, analyseStatement, orReturn,
      analyseDeclConstStatement, nextToken, unreadToken, g0, g1, g2, g3, Token.GetType,
      Token.GetValueString, h1, h2, h3, isLocalVariableDeclared, hx, Nat.add_assoc]

/-- C17, the code at the end of the stream after the colon, at a concrete input:
`let x :`. -/
theorem C17_value_of_absent_token_witness :
    analyseDeclVariableStatement standIns startItem (initAnalyser letXColon)
      = Except.error Exn.bad_optional_access :=
  ((C17_value_of_absent_token standIns startItem (initAnalyser letXColon)
    (tok TokenType.LET "let" 0) (tok TokenType.IDENTIFIER "x" 1)
    (tok TokenType.COLON ":" 2) rfl (by decide) (by decide) (by decide)).1 (by decide)).1

/-- C18, the code on `else` after a while-block. When `ELSE` follows the while-block,
`analyseWhileStatement` reads it and goes on to analyse a block statement: its result
is the result of `analyseBlockStatement` run right after the `ELSE`, and it is
`ErrNeedBrace` when no opening brace follows the `ELSE`. So it does not stop at the
token after the while-block's closing brace. -/
theorem C18_while_analyses_else_block (c : Collab) (func : FunctionItem) (n : Nat)
    (s s1 s2 s3 s4 : Analyser) (wt els : Token)
    (h1 : nextToken s = (some wt, s1)) (hw : wt.type = TokenType.WHILE)
    (h2 : c.analyseExpression s1 = (none, s2))
    (h3 : analyseBlockStatement c func n s2 = some (Except.ok (none, s3)))
    (h4 : nextToken s3 = (some els, s4)) (helse : els.type = TokenType.ELSE) :
    analyseWhileStatement c func (n + 1) s = analyseBlockStatement c func n s4
    ∧ s4._tokens = s3._tokens ∧ s4._offset = s3._offset + 1
    ∧ ((∀ t, s4._tokens[s4._offset]? = some t → t.type ≠ TokenType.LEFT_BRACE) →
        ∃ e s', analyseWhileStatement c func (n + 1) s = some (Except.ok (some e, s'))
          ∧ e.code = ErrorCode.ErrNeedBrace) := by
  have hrun : analyseWhileStatement c func (n + 1) s = analyseBlockStatement c func n s4 := by
    simp only [analyseWhileStatement, h1, Token.GetType, hw, h2, h3, h4, helse, orReturn,
      ne_eq, not_true, if_false, if_true]
    exact orReturn_id _
  refine ⟨hrun, ?_, ?_, ?_⟩
  · obtain ⟨-, rfl⟩ := nextToken_some_eq h4; rfl
  · obtain ⟨-, rfl⟩ := nextToken_some_eq h4; rfl
  · intro hno
    rw [hrun]
    cases n with
    | zero => simp [analyseBlockStatement] at h3
    | succ m =>
      simp only [analyseBlockStatement, nextToken]
      cases hg : s4._tokens[s4._offset]? with
      | none => exact ⟨_, _, rfl, rfl⟩
      | some t =>
        have := hno t hg
        simp only [Token.GetType, ne_eq, this, not_false_eq_true, if_true, mkErr]
        exact ⟨_, _, rfl, rfl⟩

/-- C18, the code on `else` after a while-block, at a concrete input: on
`while x { ; } else { ; }` the statement is continued by the block after `else`, and it
succeeds with the cursor after all nine tokens, not at the `else` that follows the
while-block. -/
theorem C18_while_analyses_else_block_witness :
    (∃ s4, analyseWhileStatement standIns startItem (3 + 1) (initAnalyser whileElseBlock)
        = analyseBlockStatement standIns startItem 3 s4 ∧ s4._offset = 6)
    ∧ finalOffset (analyseWhileStatement standIns startItem (3 + 1)
        (initAnalyser whileElseBlock)) = some 9 :=
  ⟨⟨_, (C18_while_analyses_else_block standIns startItem 3 (initAnalyser whileElseBlock)
      _ _ _ _ (tok TokenType.WHILE "while" 0) (tok TokenType.ELSE "else" 5) rfl (by decide)
      rfl rfl rfl (by decide)).1, rfl⟩,
   by simp [finalOffset, analyseWhileStatement, analyseBlockStatement,
        analyseBlockStatementLoop, analyseStatement, orReturn, nextToken, unreadToken,
        whileElseBlock, initAnalyser, standIns, oneTokenExpression, tok, Token.GetType]⟩

/-! ## The pushback discipline -/

theorem pushbackDisciplineFrom_violated (xs ys : List CursorCall) :
    ∀ prev, pushbackDisciplineFrom prev
      (xs ++ CursorCall.nextNone :: CursorCall.unread :: ys) = false := by
  induction xs with
  | nil => intro prev; simp [pushbackDisciplineFrom]
  | cons x xs ih =>
    intro prev
    cases x <;> simp [pushbackDisciplineFrom, ih]

theorem pushbackDiscipline_violated (xs ys : List CursorCall) :
    pushbackDiscipline (xs ++ CursorCall.nextNone :: CursorCall.unread :: ys) = false :=
  pushbackDisciplineFrom_violated xs ys none

/-- C19, the code after a read that returned nothing. On a stream that ends right
after `return`, `analyseReturnStatement` calls `unreadToken` right after the
`nextToken` that returned no token, which puts the cursor back on `return`, and runs
the expression analyser from there. When the stream ends right after the if-block,
`analyseIfStatement` does the same after its read for `else`, and returns success with
the cursor moved back by one token. In both runs the record of cursor calls breaks the
pushback discipline. -/
theorem C19_unread_after_failed_read (c : Collab) (func : FunctionItem) (s : Analyser)
    (ret : Token) (hs : s._tokens.drop s._offset = [ret])
    (hret : ret.type = TokenType.RETURN) :
    (∃ a, a._calls = s._calls
          ++ [CursorCall.nextSome, CursorCall.nextNone, CursorCall.unread]
        ∧ pushbackDiscipline a._calls = false
        ∧ (nextToken a).1 = some ret
        ∧ analyseReturnStatement c func s
          = (match c.analyseExpression a with
            | (some e, a1) => Except.ok (some e, a1)
            | (none, a1) =>
              match nextToken a1 with
              | (some t, a2) =>
                if t.type = TokenType.SEMICOLON then Except.ok (none, a2)
                else Except.ok (some ⟨a2._current_pos, ErrorCode.ErrNeedSemicolon⟩, a2)
              | (none, a2) =>
                Except.ok (some ⟨a2._current_pos, ErrorCode.ErrNeedSemicolon⟩, a2)))
    ∧ (∀ (n : Nat) (s0 s1 s2 s3 s4 : Analyser) (ift : Token),
        nextToken s0 = (some ift, s1) → ift.type = TokenType.IF →
        c.analyseExpression s1 = (none, s2) →
        analyseBlockStatement c func n s2 = some (Except.ok (none, s3)) →
        nextToken s3 = (none, s4) →
        ∃ s', analyseIfStatement c func (n + 1) s0 = some (Except.ok (none, s'))
          ∧ s'._calls = s3._calls ++ [CursorCall.nextNone, CursorCall.unread]
          ∧ pushbackDiscipline s'._calls = false
          ∧ s'._offset = s3._offset - 1) := by
  have g0 := getElem?_of_drop hs 0
  have g1 := getElem?_of_drop hs 1
  simp only [List.getElem?_cons_zero, List.getElem?_cons_succ, List.getElem?_nil,
    Nat.add_zero] at g0 g1
  constructor
  · refine ⟨unreadToken (nextToken (nextToken s).2).2, ?_, ?_, ?_, ?_⟩
    · simp [nextToken, unreadToken, g0, g1]
    · have : (unreadToken (nextToken (nextToken s).2).2)._calls
          = (s._calls ++ [CursorCall.nextSome])
            ++ CursorCall.nextNone :: CursorCall.unread :: [] := by
        simp [nextToken, unreadToken, g0, g1]
      rw [this]
      exact pushbackDiscipline_violated _ _
    · simp [nextToken, unreadToken, g0, g1]
    · simp only [analyseReturnStatement, nextToken, g0, g1, Token.GetType, hret, mkErr,
        ne_eq, not_true, if_false]
      rcases c.analyseExpression _ with ⟨_ | e, a1⟩
      · simp only
        cases a1._tokens[a1._offset]? <;> rfl
      · rfl
  · intro n s0 s1 s2 s3 s4 ift h1 hif h2 h3 h4
    have h4' : s4 = { s3 with _calls := s3._calls ++ [CursorCall.nextNone] } := by
      unfold nextToken at h4
      cases hg : s3._tokens[s3._offset]? with
      | none => simp only [hg, Prod.mk.injEq, true_and] at h4; exact h4.symm
      | some t => simp [hg] at h4
    refine ⟨unreadToken s4, ?_, ?_, ?_, ?_⟩
    · simp [analyseIfStatement, h1, Token.GetType, hif, h2, h3, h4, orReturn]
    · simp [h4', unreadToken]
    · have : (unreadToken s4)._calls
          = s3._calls ++ CursorCall.nextNone :: CursorCall.unread :: [] := by
        simp [h4', unreadToken]
      rw [this]
      exact pushbackDiscipline_violated _ _
    · simp [h4', unreadToken]

/-- C19, the code after a read that returned nothing, at a concrete input: the
one-token stream `return`. -/
theorem C19_unread_after_failed_read_witness :
    ∃ a, a._calls = []
          ++ [CursorCall.nextSome, CursorCall.nextNone, CursorCall.unread]
        ∧ pushbackDiscipline a._calls = false
        ∧ (nextToken a).1 = some (tok TokenType.RETURN "return" 0)
        ∧ analyseReturnStatement standIns startItem (initAnalyser returnOnly)
          = (match standIns.analyseExpression a with
            | (some e, a1) => Except.ok (some e, a1)
            | (none, a1) =>
              match nextToken a1 with
              | (some t, a2) =>
                if t.type = TokenType.SEMICOLON then Except.ok (none, a2)
                else Except.ok (some ⟨a2._current_pos, ErrorCode.ErrNeedSemicolon⟩, a2)
              | (none, a2) =>
                Except.ok (some ⟨a2._current_pos, ErrorCode.ErrNeedSemicolon⟩, a2)) :=
  (C19_unread_after_failed_read standIns startItem (initAnalyser returnOnly)
    (tok TokenType.RETURN "return" 0) rfl (by decide)).1

end miniplc0
